import Mathlib

/-!
Verification of the MDF substitution-assistant repository
(`Joaopedrosiemon/agentemdfsistema`).

This file gives a shallow embedding, in Lean 4, of the parts of the
repository that the frozen claims are about:

* the text normalisation helpers (`src/utils/text_processing.py`),
* the catalog store queries (`src/database/queries.py`, `schema.py`,
  `import_data.py`, `preload_data.py`),
* the product search pipeline (`src/services/product_service.py`),
* the stock service (`src/services/stock_service.py`),
* the attribute-similarity ranker
  (`src/services/smart_alternatives_service.py`),
* the tool registry (`src/ai/tools.py`) and the orchestrator loop
  (`src/services/substitution_orchestrator.py`).

Numbers that are Python floats in the source (thicknesses, stock
quantities, similarity scores) are modelled as rationals; the decimal
constants involved in the claims (0.1, 0.1001, 0.3, 1.0, ...) are exact
in this model and every comparison appearing in a claim has the same
verdict as the IEEE-double computation at the claimed inputs.

SQLite rows are modelled as Lean structures, tables as lists of rows in
rowid order; `fetchone` is the head of the filtered list and `LEFT JOIN`
produces one row per matching right-hand row (or a single `none`).

External collaborators (the rapidfuzz string-similarity functions, the
Claude reasoning engine, the Brave web-search API) are parameters of the
embedded functions, as the spec treats them as external interfaces.

Three location-aware store queries called by the services
(`get_stock_by_product_id(product_id, location)`,
`get_product_with_stock(product_id, location)` and
`get_stock_other_locations(product_id, primary_location)`) are not in
the bundled `src/database/queries.py` (which holds location-less
variants of the first two); following the spec they are modelled from
the Catalog Store contract in spec section 6. They are the only
definitions below that are not translated directly from source text.
-/

namespace MdfAgent

/-! ## Python-style numeric helpers -/

/-- Python `round(x, n)` (round-half-to-even) on a rational input,
used for `round(score, 2)` and `round(score, 3)` in the ranker. -/
def pyRound (ndigits : Nat) (q : ℚ) : ℚ :=
  let m : ℚ := (10 : ℚ) ^ ndigits
  let x : ℚ := q * m
  let f : ℤ := ⌊x⌋
  let r : ℚ := x - f
  let i : ℤ :=
    if r < 1/2 then f
    else if 1/2 < r then f + 1
    else if f % 2 = 0 then f else f + 1
  (i : ℚ) / m

/-! ## Text processing (`src/utils/text_processing.py`) -/

/-- ASCII lower-casing of one character (SQLite `LIKE` and Python
`str.lower` agree on ASCII, lone case used by the witnesses). -/
def charLower (c : Char) : Char := c.toLower

/-- Accent folding for the Latin-1 accented letters appearing in the
catalog, modelling `NFKD` decomposition followed by removal of
combining marks (identity on ASCII). -/
def stripAccent (c : Char) : Char :=
  if c = 'á' ∨ c = 'à' ∨ c = 'â' ∨ c = 'ã' ∨ c = 'ä' then 'a'
  else if c = 'é' ∨ c = 'è' ∨ c = 'ê' ∨ c = 'ë' then 'e'
  else if c = 'í' ∨ c = 'ì' ∨ c = 'î' ∨ c = 'ï' then 'i'
  else if c = 'ó' ∨ c = 'ò' ∨ c = 'ô' ∨ c = 'õ' ∨ c = 'ö' then 'o'
  else if c = 'ú' ∨ c = 'ù' ∨ c = 'û' ∨ c = 'ü' then 'u'
  else if c = 'ç' then 'c'
  else c

def isSpaceChar (c : Char) : Bool :=
  c = ' ' ∨ c = '\t' ∨ c = '\n' ∨ c = '\r'

/-- Python `str.strip()` on the whitespace the repo uses. -/
def pyStrip (s : String) : String :=
  let cs := s.toList
  let cs := cs.dropWhile isSpaceChar
  let cs := (cs.reverse.dropWhile isSpaceChar).reverse
  String.mk cs

/-- Collapse runs of whitespace to a single space (`re.sub(r"\s+", " ")`). -/
def collapseSpaces : List Char → List Char
  | [] => []
  | c :: rest =>
    if isSpaceChar c then
      ' ' :: collapseSpaces (rest.dropWhile isSpaceChar)
    else
      c :: collapseSpaces rest
termination_by cs => cs.length
decreasing_by
  · refine Nat.lt_succ_of_le ?_
    induction rest with
    | nil => simp
    | cons a l ih =>
      simp only [List.dropWhile]
      cases isSpaceChar a
      · simp
      · simpa using Nat.le_succ_of_le ih
  · simp

/-- `normalize_text`: strip, lowercase, fold accents, collapse spaces. -/
def normalize_text (s : String) : String :=
  if s = "" then ""
  else
    let t := pyStrip s
    let cs := (t.toList.map charLower).map stripAccent
    String.mk (collapseSpaces cs)

/-- Python `str.upper()` (ASCII, as used on product codes). -/
def pyUpper (s : String) : String :=
  String.mk (s.toList.map Char.toUpper)

/-- Case-insensitive substring test: the semantics of
`column LIKE '%pattern%'` in SQLite for ASCII text. -/
def likeContains (pattern s : String) : Bool :=
  decide (List.IsInfix (pattern.toList.map charLower) (s.toList.map charLower))

/-! ## Data model (`src/database/schema.py`)

Rows of the SQLite tables the claims touch.  Nullable columns are
`Option`; tables are lists of rows in rowid order. -/

structure Product where
  id : Nat
  brand : String
  product_name : String
  product_code : String
  thickness_mm : Option ℚ
  finish : Option String
  color_family : Option String
  category : Option String
  is_active : Bool
deriving DecidableEq, Repr

structure StockRow where
  product_id : Nat
  location : String
  quantity_available : ℚ
  quantity_reserved : ℚ
  minimum_stock : ℚ
  unit : String
deriving DecidableEq, Repr

structure EquivRow where
  product_id_a : Nat
  product_id_b : Nat
  equivalence_source : Option String
  confidence : ℚ
deriving DecidableEq, Repr

structure SimCacheRow where
  product_id_a : Nat
  product_id_b : Nat
  similarity_score : ℚ
  justification : String
deriving DecidableEq, Repr

structure DB where
  products : List Product
  stock : List StockRow
  direct_equivalences : List EquivRow
  similarity_cache : List SimCacheRow
deriving DecidableEq, Repr

/-- `config/settings.py`: `DEFAULT_MIN_STOCK = 1.0`. -/
def DEFAULT_MIN_STOCK : ℚ := 1

/-- `config/settings.py`: `PRIMARY_LOCATION` (env default "principal"). -/
def PRIMARY_LOCATION : String := "principal"

/-- `config/settings.py`: `FUZZY_MATCH_THRESHOLD = 0.6`. -/
def FUZZY_MATCH_THRESHOLD : ℚ := 3/5

/-- `config/settings.py`: `MAX_SEARCH_RESULTS = 10`. -/
def MAX_SEARCH_RESULTS : Nat := 10

/-! ## Store queries (`src/database/queries.py`) -/

/-- `get_product_by_id`: first active row with the id (`fetchone`). -/
def get_product_by_id (product_id : Nat) (db : DB) : Option Product :=
  (db.products.filter fun p => p.id = product_id ∧ p.is_active).head?

/-- `get_product_by_code`: first active row with the code. -/
def get_product_by_code (product_code : String) (db : DB) : Option Product :=
  (db.products.filter fun p =>
    p.product_code = product_code ∧ p.is_active).head?

/-- `search_products_by_name`: `LIKE '%q%'` on name, brand or code over
active products, in rowid order, capped by `LIMIT`. -/
def search_products_by_name (query : String) (limit : Nat) (db : DB) :
    List Product :=
  ((db.products.filter fun p =>
      (likeContains query p.product_name ∨ likeContains query p.brand ∨
        likeContains query p.product_code) ∧ p.is_active).take limit)

/-- `get_all_active_products`. -/
def get_all_active_products (db : DB) : List Product :=
  db.products.filter fun p => p.is_active

/-- `get_stock_by_product_id` as bundled in `queries.py`: first stock
row for the product, location ignored. -/
def get_stock_by_product_id (product_id : Nat) (db : DB) : Option StockRow :=
  (db.stock.filter fun s => s.product_id = product_id).head?

/-- Modelled from the spec: `getStock(productId, location) → StockEntry?`
(spec section 6, Catalog Store) — the location-aware stock lookup that
`product_service._enrich_with_stock` and
`stock_service.filter_available_products` call as
`get_stock_by_product_id(product_id, location=...)` and that is missing
from the bundled `src/database/queries.py`. -/
def get_stock_at_location (product_id : Nat) (location : String) (db : DB) :
    Option StockRow :=
  (db.stock.filter fun s =>
    s.product_id = product_id ∧ s.location = location).head?

/-- Modelled from the spec: the location-aware variant of
`get_product_with_stock(product_id, location)` that
`stock_service.check_availability` calls (a product row LEFT JOINed with
its stock entry at the given location); missing from the bundled
`queries.py`, which has a location-less variant on lines 67-76. -/
def get_product_with_stock_at (product_id : Nat) (location : String)
    (db : DB) : Option (Product × Option StockRow) :=
  match (db.products.filter fun p => p.id = product_id ∧ p.is_active).head? with
  | none => none
  | some p => some (p, get_stock_at_location product_id location db)

/-- Modelled from the spec:
`getStockOtherLocations(productId, excludeLocation) → StockEntry[]`
(spec section 6) called by `stock_service.check_availability` as
`get_stock_other_locations(product_id, primary_location=...)`; missing
from the bundled `queries.py`. -/
def get_stock_other_locations (product_id : Nat) (primary_location : String)
    (db : DB) : List StockRow :=
  db.stock.filter fun s =>
    s.product_id = product_id ∧ s.location ≠ primary_location

/-- One joined row of `get_products_in_stock`: product columns plus
`quantity_available`, `quantity_reserved`, `location` from stock. -/
def get_products_in_stock (min_qty : ℚ) (db : DB) :
    List (Product × StockRow) :=
  (db.products.flatMap fun p =>
    (db.stock.filter fun s => s.product_id = p.id).map fun s => (p, s)
  ).filter fun pr =>
    pr.1.is_active ∧
      min_qty ≤ pr.2.quantity_available - pr.2.quantity_reserved

/-- All stock rows of a product, or a single `none` — the semantics of
`LEFT JOIN stock s ON p.id = s.product_id`. -/
def leftJoinStock (p : Product) (db : DB) : List (Option StockRow) :=
  match db.stock.filter fun s => s.product_id = p.id with
  | [] => [none]
  | l => l.map some

/-- One row of `get_equivalents`: the equivalence row, the product on
the other side of the pair, and its LEFT-JOINed stock row. -/
structure EquivResult where
  product : Product
  equivalence_source : Option String
  confidence : ℚ
  stock : Option StockRow
deriving DecidableEq, Repr

/-- `get_equivalents`: equivalence rows touching the product, joined
(via the CASE expression) with the active product on the other side and
LEFT JOINed with stock. -/
def get_equivalents (product_id : Nat) (db : DB) : List EquivResult :=
  db.direct_equivalences.flatMap fun de =>
    if de.product_id_a = product_id ∨ de.product_id_b = product_id then
      let other :=
        if de.product_id_a = product_id then de.product_id_b
        else de.product_id_a
      match (db.products.filter fun p => p.id = other ∧ p.is_active).head? with
      | none => []
      | some p =>
        (leftJoinStock p db).map fun s =>
          { product := p, equivalence_source := de.equivalence_source,
            confidence := de.confidence, stock := s }
    else []

/-- `get_cached_similarity`: first cache row matching the pair in
either direction. -/
def get_cached_similarity (product_id_a product_id_b : Nat) (db : DB) :
    Option SimCacheRow :=
  (db.similarity_cache.filter fun r =>
    (r.product_id_a = product_id_a ∧ r.product_id_b = product_id_b) ∨
    (r.product_id_a = product_id_b ∧ r.product_id_b = product_id_a)).head?

/-- `save_similarity_cache`: `INSERT OR REPLACE` under the ordered
UNIQUE(product_id_a, product_id_b) constraint — any row with the same
ordered pair is replaced, a reversed row is untouched. -/
def save_similarity_cache (product_id_a product_id_b : Nat) (score : ℚ)
    (justification : String) (db : DB) : DB :=
  { db with
    similarity_cache :=
      (db.similarity_cache.filter fun r =>
        ¬(r.product_id_a = product_id_a ∧ r.product_id_b = product_id_b)) ++
      [{ product_id_a := product_id_a, product_id_b := product_id_b,
         similarity_score := score, justification := justification }] }

/-- The canonicalised equivalence insertion shared by
`import_data.import_equivalences` (lines 299-311) and
`preload_data` (lines 110-123): order the pair lower id first, then
`INSERT OR IGNORE` under UNIQUE(product_id_a, product_id_b). -/
def insert_direct_equivalence (pa pb : Nat) (source : Option String)
    (confidence : ℚ) (tbl : List EquivRow) : List EquivRow :=
  if tbl.any fun r =>
      r.product_id_a = min pa pb ∧ r.product_id_b = max pa pb then tbl
  else tbl ++ [{ product_id_a := min pa pb, product_id_b := max pa pb,
                 equivalence_source := source, confidence := confidence }]

/-! ## Thickness extraction and query normalisation
(`product_service._extract_thickness_mm`, `_normalize_query_for_search`) -/

def isDigitChar (c : Char) : Bool := '0' ≤ c ∧ c ≤ '9'

/-- Word characters for the `\b` boundaries of the Python regexes
(ASCII letters, digits, underscore, plus the Latin-1 accented letters
that Python's Unicode `\w` also matches in this catalog). -/
def isWordChar (c : Char) : Bool :=
  c.isAlpha ∨ c.isDigit ∨ c = '_' ∨ stripAccent c ≠ c

def digitsVal (ds : List Char) : Nat :=
  ds.foldl (fun acc c => acc * 10 + (c.toNat - 48)) 0

/-- Value of the decimal literal `ds [. frac]` (`float` of the matched
group after `,`→`.`). -/
def decimalVal (ds frac : List Char) : ℚ :=
  (digitsVal ds : ℚ) + (digitsVal frac : ℚ) / (10 : ℚ) ^ frac.length

/-- Match `(\d+(?:[.,]\d+)?)\s*mm` (case-insensitive) anchored at the
start of `cs`, returning the numeric value. -/
def matchThicknessAt (cs : List Char) : Option ℚ :=
  let ds := cs.takeWhile isDigitChar
  if ds.isEmpty then none
  else
    let rest := cs.drop ds.length
    let frac : List Char :=
      match rest with
      | c :: tl =>
        if (c = '.' ∨ c = ',') ∧ ¬(tl.takeWhile isDigitChar).isEmpty then
          tl.takeWhile isDigitChar
        else []
      | [] => []
    let rest2 := rest.drop (if frac.isEmpty then 0 else frac.length + 1)
    let rest3 := rest2.dropWhile isSpaceChar
    match rest3 with
    | a :: b :: _ =>
      if charLower a = 'm' ∧ charLower b = 'm' then
        some (decimalVal ds frac)
      else none
    | _ => none

def scanThickness : List Char → Option ℚ
  | [] => none
  | c :: tl =>
    match matchThicknessAt (c :: tl) with
    | some t => some t
    | none => scanThickness tl

/-- `_extract_thickness_mm`: value of the first
`(\d+(?:[.,]\d+)?)\s*mm` match, `re.search` scanning left to right. -/
def extract_thickness_mm (s : String) : Option ℚ :=
  scanThickness s.toList

/-- `\b` at the junction between a match ending in a word character
and the rest of the text: satisfied at end of string or before a
non-word character. -/
def boundaryAfter : List Char → Bool
  | [] => true
  | d :: _ => ¬isWordChar d

/-- Match `\b\d+(?:[.,]\d+)?\s*mm\b` anchored at the start of `cs`
(the leading `\b` is checked by the caller), returning the number of
characters consumed; always at least 2. -/
def matchThicknessSpan (cs : List Char) : Option Nat :=
  let ds := cs.takeWhile isDigitChar
  if ds.isEmpty then none
  else
    let rest := cs.drop ds.length
    let fracLen : Nat :=
      match rest with
      | c :: tl =>
        if (c = '.' ∨ c = ',') ∧ ¬(tl.takeWhile isDigitChar).isEmpty then
          (tl.takeWhile isDigitChar).length + 1
        else 0
      | [] => 0
    let rest2 := rest.drop fracLen
    let spLen := (rest2.takeWhile isSpaceChar).length
    let rest3 := rest2.drop spLen
    match rest3 with
    | a :: b :: tl2 =>
      if charLower a = 'm' ∧ charLower b = 'm' ∧ boundaryAfter tl2 then
        some (ds.length + fracLen + spLen + 2)
      else none
    | _ => none

/-- `re.sub(r"\b\d+(?:[.,]\d+)?\s*mm\b", "", q)`: delete every
word-bounded thickness token, scanning left to right; `prev` records
whether the previous character is a word character. -/
def removeThicknessTokens (prev : Bool) : List Char → List Char
  | [] => []
  | c :: tl =>
    if prev then c :: removeThicknessTokens (isWordChar c) tl
    else
      match matchThicknessSpan (c :: tl) with
      | some n => removeThicknessTokens true (tl.drop (n - 1))
      | none => c :: removeThicknessTokens (isWordChar c) tl
termination_by cs => cs.length
decreasing_by
  all_goals simp [List.length_drop]
  omega

/-- The alternatives of `\b(mdf|mdp|bp|pvc|hdf)\b`. -/
def materialTokens : List (List Char) :=
  [['m','d','f'], ['m','d','p'], ['b','p'], ['p','v','c'], ['h','d','f']]

/-- Match one word-bounded material token at the start of `cs`
(case-insensitive), returning its length. -/
def matchMaterialSpan (cs : List Char) : Option Nat :=
  (materialTokens.filterMap fun tok =>
    if (cs.take tok.length).map charLower = tok ∧
        boundaryAfter (cs.drop tok.length) then
      some tok.length
    else none).head?

/-- `re.sub(r"\b(mdf|mdp|bp|pvc|hdf)\b", "", q)`. -/
def removeMaterialTokens (prev : Bool) : List Char → List Char
  | [] => []
  | c :: tl =>
    if prev then c :: removeMaterialTokens (isWordChar c) tl
    else
      match matchMaterialSpan (c :: tl) with
      | some n => removeMaterialTokens true (tl.drop (n - 1))
      | none => c :: removeMaterialTokens (isWordChar c) tl
termination_by cs => cs.length
decreasing_by
  all_goals simp [List.length_drop]
  omega

/-- `_normalize_query_for_search`: strip thickness and material tokens,
collapse whitespace; fall back to the original query if empty. -/
def normalize_query_for_search (query : String) : String :=
  let q1 := String.mk (removeThicknessTokens false query.toList)
  let q2 := String.mk (removeMaterialTokens false q1.toList)
  let q3 := pyStrip (String.mk (collapseSpaces q2.toList))
  if q3 = "" then query else q3

/-! ## Stable sorting

Python `list.sort(key=k, reverse=True)` is a stable descending sort;
it is modelled by insertion sort, which places an element before the
first strictly smaller key and after equal keys seen earlier.  The SQL
`ORDER BY score DESC` of the similarity-cache query is modelled with
the same function over rowid order. -/

def insertDescBy {α : Type} (key : α → ℚ) (x : α) : List α → List α
  | [] => [x]
  | y :: ys =>
    if key y ≤ key x then x :: y :: ys else y :: insertDescBy key x ys

def sortDescBy {α : Type} (key : α → ℚ) : List α → List α
  | [] => []
  | x :: xs => insertDescBy key x (sortDescBy key xs)

/-! ## Text Matcher (`src/services/product_service.py`) -/

/-- The rapidfuzz string-similarity functions (external library),
returning scores in [0, 100]: `tokenSortScore` models
`fuzz.token_sort_ratio` and `simpleScore` models `fuzz.ratio`. -/
structure Fuzz where
  tokenSortScore : String → String → ℚ
  simpleScore : String → String → ℚ

/-- One entry of the pre-normalised fuzzy cache (`_get_fuzzy_cache`). -/
structure FuzzyItem where
  id : Nat
  norm_name : String
  norm_brand_name : String
  norm_code : String
  row : Product
deriving DecidableEq, Repr

/-- `_get_fuzzy_cache`: pre-normalised entries for all active products
(the process-lifetime cache, modelled as freshly derived from the
store; the claims do not concern staleness). -/
def get_fuzzy_cache (db : DB) : List FuzzyItem :=
  (get_all_active_products db).map fun p =>
    { id := p.id,
      norm_name := normalize_text p.product_name,
      norm_brand_name := normalize_text (p.brand ++ " " ++ p.product_name),
      norm_code := normalize_text p.product_code,
      row := p }

/-- `_compute_match_score`: max of name, brand and brand-name
token-sort similarities against the query, scaled to [0,1]. -/
def compute_match_score (fz : Fuzz) (query : String) (p : Product) : ℚ :=
  let nq := normalize_text query
  let name_score := fz.tokenSortScore nq (normalize_text p.product_name) / 100
  let brand_score := fz.tokenSortScore nq (normalize_text p.brand) / 100
  let combined_score :=
    fz.tokenSortScore nq (normalize_text (p.brand ++ " " ++ p.product_name)) / 100
  max name_score (max brand_score combined_score)

/-- `_fuzzy_score_cached`. -/
def fuzzy_score_cached (fz : Fuzz) (normalized_query : String)
    (item : FuzzyItem) : ℚ :=
  let name_score := fz.tokenSortScore normalized_query item.norm_name / 100
  let combined_score := fz.tokenSortScore normalized_query item.norm_brand_name / 100
  let code_score := fz.simpleScore normalized_query item.norm_code / 100
  max name_score (max combined_score code_score)

/-- One search result: the product row plus the keys `search` adds
(`match_score`, `match_type`, stock enrichment, thickness flags). -/
structure SearchResult where
  product : Product
  match_score : ℚ
  match_type : String
  quantity_available : ℚ
  quantity_reserved : ℚ
  location : String
  in_stock : Bool
  requested_thickness_mm : Option ℚ
  thickness_match : Option Bool
deriving DecidableEq, Repr

/-- `_enrich_with_stock`: attach the stock entry at the primary
location (zero quantities and `in_stock = False` when absent). -/
def enrich_with_stock (db : DB) (p : Product) (score : ℚ)
    (ty : String) : SearchResult :=
  match get_stock_at_location p.id PRIMARY_LOCATION db with
  | some s =>
    { product := p, match_score := score, match_type := ty,
      quantity_available := s.quantity_available,
      quantity_reserved := s.quantity_reserved,
      location := s.location,
      in_stock := 0 < s.quantity_available - s.quantity_reserved,
      requested_thickness_mm := none, thickness_match := none }
  | none =>
    { product := p, match_score := score, match_type := ty,
      quantity_available := 0, quantity_reserved := 0,
      location := PRIMARY_LOCATION, in_stock := false,
      requested_thickness_mm := none, thickness_match := none }

/-- Strategies 2 and 3 of `search` (SQL LIKE matching, then fuzzy
fallback when fewer than 3 results and no exact name match), followed
by the final descending sort on `match_score`. -/
def searchBase (fz : Fuzz) (db : DB) (sql_limit : Nat)
    (query_for_match : String) : List SearchResult :=
  let sql_results := search_products_by_name query_for_match sql_limit db
  let results2 := sql_results.map fun p =>
    enrich_with_stock db p (compute_match_score fz query_for_match p) "name_match"
  let seen_ids := sql_results.map fun p => p.id
  let exact_name_match := sql_results.any fun p =>
    normalize_text p.product_name = normalize_text query_for_match
  let results :=
    if results2.length < 3 ∧ ¬exact_name_match then
      let normalized_query := normalize_text query_for_match
      let fuzzy_results :=
        ((get_fuzzy_cache db).filter fun it => ¬seen_ids.contains it.id).filterMap
          fun it =>
            let score := fuzzy_score_cached fz normalized_query it
            if FUZZY_MATCH_THRESHOLD ≤ score then some (score, it) else none
      let top := (sortDescBy (fun x => x.1) fuzzy_results).take MAX_SEARCH_RESULTS
      results2 ++ top.map fun x => enrich_with_stock db x.2.row x.1 "fuzzy"
    else results2
  sortDescBy (fun r => r.match_score) results

/-- Set `requested_thickness_mm` and `thickness_match` on one result
(`search`, lines 80-90): a result matches when its thickness is known
and within 0.1 mm of the requested value. -/
def setThicknessFlag (t : ℚ) (r : SearchResult) : SearchResult :=
  { r with
    requested_thickness_mm := some t,
    thickness_match := some
      (match r.product.thickness_mm with
       | none => false
       | some th => decide (|th - t| ≤ 1/10)) }

/-- The thickness partition of `search` (lines 78-93): if any result
matches the requested thickness, return only those; otherwise return
the full flagged list; both capped at `MAX_SEARCH_RESULTS`. -/
def applyThicknessFilter (t : ℚ) (results : List SearchResult) :
    List SearchResult :=
  let flagged := results.map (setThicknessFlag t)
  let matched := flagged.filter fun r => r.thickness_match = some true
  if matched.isEmpty then flagged.take MAX_SEARCH_RESULTS
  else matched.take MAX_SEARCH_RESULTS

/-- `product_service.search`: multi-strategy search.  Strategy 1 is
the exact-code lookup on the upper-cased query, which short-circuits;
otherwise LIKE search and fuzzy fallback run, and the thickness policy
applies when the query mentions an explicit thickness. -/
def search (fz : Fuzz) (db : DB) (query0 : String) : List SearchResult :=
  let query := pyStrip query0
  if query = "" then []
  else
    let required_thickness := extract_thickness_mm query
    let query_for_match := normalize_query_for_search query
    match get_product_by_code (pyUpper query) db with
    | some p => [enrich_with_stock db p 1 "exact_code"]
    | none =>
      let sql_limit := if required_thickness.isSome then 100 else 20
      let results := searchBase fz db sql_limit query_for_match
      match required_thickness with
      | some t => applyThicknessFilter t results
      | none => results.take MAX_SEARCH_RESULTS

/-! ## Stock service (`src/services/stock_service.py`) -/

structure OtherLocationEntry where
  location : String
  quantity_available : ℚ
  quantity_reserved : ℚ
  net_available : ℚ
  unit : String
deriving DecidableEq, Repr

structure AvailInfo where
  product_id : Nat
  product_code : String
  product_name : String
  brand : String
  quantity_available : ℚ
  quantity_reserved : ℚ
  net_available : ℚ
  in_stock : Bool
  is_low_stock : Bool
  minimum_stock : ℚ
  location : Option String
  unit : Option String
  other_locations : Option (List OtherLocationEntry)
deriving DecidableEq, Repr

/-- Result of `check_availability`: the not-found payload or the
availability response dict. -/
inductive StockCheck
  | notFound (error : String)
  | ok (info : AvailInfo)
deriving DecidableEq, Repr

/-- The other-location collection loop of `check_availability`
(lines 38-60): first row per location wins, rows with net below
`DEFAULT_MIN_STOCK` are skipped without claiming the location. -/
def collectOtherLocations : List StockRow → List String → List OtherLocationEntry
  | [], _ => []
  | r :: tl, seen =>
    if seen.contains r.location then collectOtherLocations tl seen
    else
      let net := r.quantity_available - r.quantity_reserved
      if net < DEFAULT_MIN_STOCK then collectOtherLocations tl seen
      else
        { location := r.location,
          quantity_available := r.quantity_available,
          quantity_reserved := r.quantity_reserved,
          net_available := net, unit := r.unit } ::
          collectOtherLocations tl (r.location :: seen)

/-- `stock_service.check_availability(product_id, include_other_locations)`. -/
def check_availability (product_id : Nat) (include_other_locations : Bool)
    (db : DB) : StockCheck :=
  match get_product_with_stock_at product_id PRIMARY_LOCATION db with
  | none => .notFound "Produto nao encontrado"
  | some (p, st) =>
    let qty_available := (st.map fun s => s.quantity_available).getD 0
    let qty_reserved := (st.map fun s => s.quantity_reserved).getD 0
    let net := qty_available - qty_reserved
    let minimum := (st.map fun s => s.minimum_stock).getD 0
    .ok
      { product_id := p.id, product_code := p.product_code,
        product_name := p.product_name, brand := p.brand,
        quantity_available := qty_available,
        quantity_reserved := qty_reserved,
        net_available := net,
        in_stock := DEFAULT_MIN_STOCK ≤ net,
        is_low_stock := 0 < net ∧ net ≤ minimum,
        minimum_stock := minimum,
        location := st.map fun s => s.location,
        unit := st.map fun s => s.unit,
        other_locations :=
          if include_other_locations then
            some (collectOtherLocations
              (get_stock_other_locations product_id PRIMARY_LOCATION db) [])
          else none }

/-! ## Tool registry (`src/ai/tools.py`)

Each entry records the tool name and the property/required lists of
its `input_schema` (the wire format exposed to the reasoning engine). -/

structure ToolSpec where
  name : String
  properties : List String
  required : List String
deriving DecidableEq, Repr

def TOOLS : List ToolSpec := [
  { name := "search_product", properties := ["query"], required := ["query"] },
  { name := "check_stock", properties := ["product_id"],
    required := ["product_id"] },
  { name := "find_direct_equivalents",
    properties := ["product_id", "require_same_thickness"],
    required := ["product_id"] },
  { name := "find_smart_alternatives",
    properties := ["product_id", "max_results"], required := ["product_id"] },
  { name := "search_web_mdf", properties := ["product_name", "brand"],
    required := ["product_name"] },
  { name := "find_compatible_edging_tape", properties := ["product_id"],
    required := ["product_id"] },
  { name := "register_feedback",
    properties := ["original_product_id", "suggested_product_id", "accepted",
                   "rating", "comment"],
    required := ["original_product_id", "suggested_product_id", "accepted"] },
  { name := "generate_client_text",
    properties := ["original_product_id", "suggested_product_id",
                   "suggestion_type"],
    required := ["original_product_id", "suggested_product_id",
                 "suggestion_type"] },
  { name := "search_by_image", properties := ["max_results"], required := [] }]

/-! ## Orchestrator loop
(`substitution_orchestrator.SubstitutionOrchestrator.process_message`)

The external reasoning engine (`self.client.chat`) is a parameter
mapping the conversation history to a list of content blocks; the tool
handlers are a parameter mapping a tool name to an optional handler,
a handler returning `Except.error` modelling a raised exception.  Tool
inputs are keyword-argument dictionaries; handler payloads are their
`json.dumps` serialisations.  (The image+text composite user content is
outside the claims and is represented by the plain text content.) -/

inductive ArgVal
  | int (n : Int)
  | str (s : String)
  | bool (b : Bool)
deriving DecidableEq, Repr

abbrev ToolInput := List (String × ArgVal)

structure ToolUseBlock where
  id : String
  name : String
  input : ToolInput
deriving DecidableEq, Repr

inductive ContentBlock
  | text (s : String)
  | tool_use (b : ToolUseBlock)
deriving DecidableEq, Repr

/-- Content of one `tool_result`: the serialised handler result, or
the serialised single-key error dict built at the dispatch boundary. -/
inductive ToolResultContent
  | payload (json : String)
  | errorPayload (message : String)
deriving DecidableEq, Repr

structure ToolResult where
  tool_use_id : String
  content : ToolResultContent
deriving DecidableEq, Repr

inductive MsgContent
  | text (s : String)
  | blocks (bs : List ContentBlock)
  | toolResults (rs : List ToolResult)
deriving DecidableEq, Repr

structure Message where
  role : String
  content : MsgContent
deriving DecidableEq, Repr

abbrev Handlers := String → Option (ToolInput → Except String String)

abbrev Engine := List Message → List ContentBlock

def toolUseBlocks (bs : List ContentBlock) : List ToolUseBlock :=
  bs.filterMap fun b =>
    match b with
    | .tool_use t => some t
    | .text _ => none

/-- `"".join(b.text for b in response.content if b.type == "text")`. -/
def extractText (bs : List ContentBlock) : String :=
  String.join (bs.filterMap fun b =>
    match b with
    | .text s => some s
    | .tool_use _ => none)

/-- Dispatch of one tool call (`process_message` lines 120-137): an
unknown tool or a raised exception becomes an error payload in this
call's own result slot. -/
def dispatch_tool_call (handlers : Handlers) (b : ToolUseBlock) : ToolResult :=
  match handlers b.name with
  | none =>
    { tool_use_id := b.id,
      content := .errorPayload ("Ferramenta desconhecida: " ++ b.name) }
  | some h =>
    match h b.input with
    | .ok payload => { tool_use_id := b.id, content := .payload payload }
    | .error e => { tool_use_id := b.id, content := .errorPayload e }

/-- All result slots of one tool-call round. -/
def round_results (handlers : Handlers) (blocks : List ToolUseBlock) :
    List ToolResult :=
  blocks.map (dispatch_tool_call handlers)

/-- The user message appended on entry (line 77). -/
def userTextMsg (s : String) : Message :=
  { role := "user", content := .text s }

/-- The assistant message carrying the engine response
(lines 98-99 and 107-109). -/
def assistantMsg (bs : List ContentBlock) : Message :=
  { role := "assistant", content := .blocks bs }

/-- The user message carrying one round of tool results (line 139). -/
def toolResultsMsg (rs : List ToolResult) : Message :=
  { role := "user", content := .toolResults rs }

/-- `process_message` line 145. -/
def FALLBACK_MESSAGE : String :=
  "Desculpe, nao consegui completar a analise. Pode reformular sua pergunta?"

/-- `max_iterations = 8` (line 79). -/
def MAX_ITERATIONS : Nat := 8

/-- The `while iteration < max_iterations` loop of `process_message`,
with the remaining iteration budget as fuel. -/
def process_loop (engine : Engine) (handlers : Handlers) :
    Nat → List Message → String × List Message
  | 0, hist => (FALLBACK_MESSAGE, hist)
  | fuel + 1, hist =>
    let response := engine hist
    let tub := toolUseBlocks response
    if tub.isEmpty then
      (extractText response, hist ++ [assistantMsg response])
    else
      let results := round_results handlers tub
      process_loop engine handlers fuel
        (hist ++ [assistantMsg response, toolResultsMsg results])

/-- `process_message(user_message, conversation_history)`: append the
user message, run the loop, return the final text and the accumulated
history. -/
def process_message (engine : Engine) (handlers : Handlers)
    (user_message : String) (history : List Message) :
    String × List Message :=
  process_loop engine handlers MAX_ITERATIONS
    (history ++ [userTextMsg user_message])

/-! ## Web Cross-Reference Resolver
(`src/services/web_search_service.py`)

The Brave HTTP call is external; its observable outcome (a JSON result
list, a timeout, an HTTP error, or another exception) together with the
API-key configuration form the `WebWorld` parameter. -/

structure WebResult where
  title : String
  snippet : String
  url : String
deriving DecidableEq, Repr

inductive BraveResponse
  | ok (items : List (String × String × String))
  | timeout
  | httpError (status : Nat) (message : String)
  | otherError (message : String)
deriving DecidableEq, Repr

structure WebWorld where
  api_key_set : Bool
  response : BraveResponse
deriving DecidableEq, Repr

/-- Outcome of `_search_brave`: a single error dict, a single info
dict, or the relevant results. -/
inductive BraveResults
  | error (message : String)
  | info (message : String)
  | results (rs : List WebResult)
deriving DecidableEq, Repr

def pyLower (s : String) : String :=
  String.mk (s.toList.map charLower)

/-- `str` containment (`needle in haystack`). -/
def strContains (haystack needle : String) : Bool :=
  decide (List.IsInfix needle.toList haystack.toList)

/-- Python `s.split()`: whitespace-separated words, no empties. -/
def pyWords (s : String) : List String :=
  (s.split isSpaceChar).filter fun w => w ≠ ""

/-- `_is_relevant_result`: mentions a generic material term and shares
a content word (length > 2) with the product name. -/
def is_relevant_result (title snippet product_name : String) : Bool :=
  let combined := pyLower (title ++ " " ++ snippet)
  let mdf_terms := ["mdf", "melamina", "chapa", "painel", "madeira", "marcenaria"]
  if ¬mdf_terms.any fun term => strContains combined term then false
  else
    let product_words := pyWords (pyLower product_name)
    1 ≤ (product_words.filter fun w =>
          strContains combined w ∧ 2 < w.length).length

/-- `_search_brave`: missing key, transport failures and empty result
sets become error/info payloads; result items are capped at 8 and kept
only when relevant. -/
def search_brave (w : WebWorld) (product_name : String) : BraveResults :=
  if ¬w.api_key_set then
    .error "Busca web nao configurada. Configure BRAVE_API_KEY no .env."
  else
    match w.response with
    | .ok items =>
      let results := (items.take 8).filterMap fun it =>
        if is_relevant_result it.1 it.2.1 product_name then
          some { title := it.1, snippet := it.2.1, url := it.2.2 }
        else none
      if results.isEmpty then
        .info ("Nenhum resultado relevante encontrado para " ++ product_name ++ ".")
      else .results results
    | .timeout => .error "Busca web demorou demais. Tente novamente."
    | .httpError status message =>
      if status = 429 then
        .error "Limite de buscas web atingido. Tente novamente mais tarde."
      else .error ("Erro na busca web: " ++ message)
    | .otherError message =>
      .error ("Erro inesperado na busca web: " ++ message)

/-- `MDF_KEYWORDS` (module constant). -/
def MDF_KEYWORDS : List String :=
  ["mdf", "melamina", "chapa", "painel",
   "carvalho", "nogal", "nogueira", "cedro", "cedrinho", "freijo",
   "rovere", "ipanema", "itapua", "jatoba", "teca", "imbuia",
   "pinho", "maple", "cumaru", "canela", "castanho", "acacia",
   "montana", "lenho", "savana", "pecan",
   "branco", "cinza", "grafite", "preto", "areia", "creme",
   "neve", "titanio", "chumbo", "chocolate", "tabaco",
   "duratex", "eucatex", "arauco", "berneck", "guararapes",
   "fibraplac", "masisa", "sonae", "floraplac", "sudati",
   "design", "matt", "silk", "nature", "lacca", "chess", "trama"]

/-- The single-character separators of `_extract_product_candidates`. -/
def separatorChars : List Char := [',', ';', '.', '(', ')', '[', ']', '|', '/', '-']

/-- The word-bounded connector alternatives of the split pattern. -/
def connectorWords : List (List Char) :=
  ["ou".toList, "como".toList, "similar".toList, "alternativa".toList,
   "equivalente".toList, "substituto".toList, "versao".toList]

/-- Match one word-bounded connector at the start of `cs`
(case-insensitive), returning its length. -/
def matchConnectorSpan (cs : List Char) : Option Nat :=
  (connectorWords.filterMap fun tok =>
    if (cs.take tok.length).map charLower = tok ∧
        boundaryAfter (cs.drop tok.length) then
      some tok.length
    else none).head?

/-- `re.split` on the separator pattern: each separator character or
word-bounded connector word ends the current fragment. -/
def splitSeparators (prev : Bool) (cur : List Char) :
    List Char → List (List Char)
  | [] => [cur.reverse]
  | c :: tl =>
    if separatorChars.contains c then
      cur.reverse :: splitSeparators false [] tl
    else if prev then
      splitSeparators (isWordChar c) (c :: cur) tl
    else
      match matchConnectorSpan (c :: tl) with
      | some n => cur.reverse :: splitSeparators true [] (tl.drop (n - 1))
      | none => splitSeparators (isWordChar c) (c :: cur) tl
termination_by cs => cs.length
decreasing_by
  all_goals simp [List.length_drop]
  omega

/-- `_extract_product_candidates`: split on separators, keep stripped
fragments of 2-8 words containing an MDF keyword, deduplicate by
lowercased text, cap at 15. -/
def extract_product_candidates (text : String) : List String :=
  let fragments := splitSeparators false [] text.toList
  let step := fragments.foldl
    (fun (acc : List String × List String) fragChars =>
      let frag := pyStrip (String.mk fragChars)
      let words := pyWords frag
      if words.length < 2 ∨ 8 < words.length then acc
      else
        let lower := pyLower frag
        if MDF_KEYWORDS.any fun kw => strContains lower kw then
          let key := pyStrip lower
          if acc.1.contains key then acc
          else (key :: acc.1, frag :: acc.2)
        else acc)
    ([], [])
  step.2.reverse.take 15

/-- One local catalog match annotated with its web source. -/
structure LocalMatch where
  result : SearchResult
  source_url : String
  source_title : String
deriving DecidableEq, Repr

/-- The thickness gate of `_cross_reference_with_stock`: when a
thickness was requested, a candidate with unknown thickness or more
than 0.1 mm away is discarded. -/
def thicknessMismatch (th required : Option ℚ) : Bool :=
  match th, required with
  | none, _ => true
  | some th, some t => 1/10 < |th - t|
  | some _, none => false

/-- The accumulation loop of `_cross_reference_with_stock`: a dict
keyed by product id in insertion order. -/
def crossRefCollect (fz : Fuzz) (db : DB) (exclude_lower : String)
    (required_thickness : Option ℚ) :
    List (String × WebResult) → List LocalMatch → List LocalMatch
  | [], acc => acc
  | (name, source) :: tl, acc =>
    let acc2 := (search fz db name).foldl
      (fun (acc : List LocalMatch) product =>
        if exclude_lower ≠ "" ∧
            strContains (pyLower product.product.product_name) exclude_lower then
          acc
        else if required_thickness.isSome ∧
            thicknessMismatch product.product.thickness_mm required_thickness then
          acc
        else if product.match_score < 1/2 then acc
        else if acc.any fun m => m.result.product.id = product.product.id then
          acc
        else
          acc ++ [{ result := product, source_url := source.url,
                    source_title := source.title }])
      acc
    crossRefCollect fz db exclude_lower required_thickness tl acc2

/-- `_cross_reference_with_stock`: collect, then rank in-stock first
and by match score, cap at 10. -/
def cross_reference_with_stock (fz : Fuzz) (db : DB)
    (candidates : List (String × WebResult)) (exclude_product_name : String)
    (required_thickness : Option ℚ) : List LocalMatch :=
  let exclude_lower := pyStrip (pyLower exclude_product_name)
  let collected := crossRefCollect fz db exclude_lower required_thickness
    candidates []
  (sortDescBy
    (fun m => (if m.result.in_stock then (2 : ℚ) else 0) + m.result.match_score)
    collected).take 10

structure WebSearchPayload where
  local_matches : List LocalMatch
  web_references : List WebResult
  summary : String
deriving DecidableEq, Repr

/-- `search_web_and_cross_reference(product_name, brand)`. -/
def search_web_and_cross_reference (w : WebWorld) (fz : Fuzz) (db : DB)
    (product_name _brand : String) : WebSearchPayload :=
  match search_brave w product_name with
  | .error m => { local_matches := [], web_references := [], summary := m }
  | .info m => { local_matches := [], web_references := [], summary := m }
  | .results web_results =>
    let candidates := web_results.flatMap fun r =>
      (extract_product_candidates (r.title ++ " " ++ r.snippet)).map
        fun name => (name, r)
    let required_thickness := extract_thickness_mm product_name
    let local_matches := cross_reference_with_stock fz db candidates
      product_name required_thickness
    let total_web := web_results.length
    let in_stock_count :=
      (local_matches.filter fun m => m.result.in_stock).length
    let total_local := local_matches.length
    let summary :=
      if 0 < in_stock_count then
        "Encontrei " ++ toString total_web ++ " referencias na web. Desses, " ++
          toString in_stock_count ++
          " produto(s) similar(es) esta(ao) em nosso estoque!"
      else if 0 < total_local then
        "Encontrei " ++ toString total_web ++ " referencias na web. " ++
          toString total_local ++
          " produto(s) existe(m) em nossa base, mas nenhum com estoque disponivel."
      else
        "Encontrei " ++ toString total_web ++
          " referencias na web, mas nenhum dos produtos mencionados foi " ++
          "encontrado em nossa base. Veja as referencias abaixo para " ++
          "consultar manualmente."
    { local_matches := local_matches, web_references := web_results,
      summary := summary }

/-- Attribute lookup on the `web_search_service` module for callables
with the resolver signature: the module defines
`is_web_search_available`, `search_web_and_cross_reference` and the
underscore helpers `_search_brave`, `_extract_product_candidates`,
`_cross_reference_with_stock`, `_extract_thickness_mm`,
`_is_relevant_result` — and nothing named `search_mdf_references`. -/
def web_search_service_attr (attr : String) :
    Option (WebWorld → Fuzz → DB → String → String → WebSearchPayload) :=
  if attr = "search_web_and_cross_reference" then
    some search_web_and_cross_reference
  else none

/-- `SubstitutionOrchestrator._handle_web_search` (lines 218-221):
`return web_search_service.search_mdf_references(product_name, brand)`;
the attribute access raises `AttributeError` when the name is not
defined by the module. -/
def handle_search_web_mdf (w : WebWorld) (fz : Fuzz) (db : DB)
    (product_name brand : String) : Except String WebSearchPayload :=
  match web_search_service_attr "search_mdf_references" with
  | some f => .ok (f w fz db product_name brand)
  | none =>
    .error ("AttributeError: module src.services.web_search_service " ++
      "has no attribute search_mdf_references")

/-! ## Attribute Similarity Ranker
(`src/services/smart_alternatives_service.py`) -/

/-- `WOOD_FAMILIES`: keyword → family, in source (insertion) order. -/
def WOOD_FAMILIES : List (String × String) :=
  [("carvalho", "carvalho"), ("oak", "carvalho"), ("rovere", "carvalho"),
   ("hanover", "carvalho"),
   ("nogal", "nogal"), ("nogueira", "nogal"), ("walnut", "nogal"),
   ("cedro", "cedro"), ("cedrinho", "cedro"), ("cedar", "cedro"),
   ("freijo", "freijo"), ("louro", "freijo"), ("cumaru", "freijo"),
   ("ipanema", "tropical"), ("itapua", "tropical"), ("jatoba", "tropical"),
   ("jequitiba", "tropical"), ("canela", "tropical"), ("castanho", "tropical"),
   ("castanheira", "tropical"), ("acacia", "tropical"), ("savana", "tropical"),
   ("lenho", "tropical"),
   ("amendoa", "amendoa"), ("amendoeira", "amendoa"), ("ameixa", "amendoa"),
   ("avela", "amendoa"), ("damasco", "amendoa"), ("gengibre", "amendoa"),
   ("pecan", "amendoa"),
   ("imbuia", "imbuia"), ("teca", "teca"), ("teka", "teca"),
   ("montana", "montana"), ("melbourne", "montana"),
   ("pinho", "pinho"), ("maple", "maple"), ("rustico", "rustico")]

/-- `COLOR_FAMILIES`: keyword → family, in source order. -/
def COLOR_FAMILIES : List (String × String) :=
  [("branco", "branco"), ("neve", "branco"), ("white", "branco"),
   ("artico", "branco"),
   ("cinza", "cinza"), ("grafite", "cinza"), ("grafito", "cinza"),
   ("titanio", "cinza"), ("chumbo", "cinza"),
   ("preto", "preto"), ("black", "preto"),
   ("areia", "neutro_claro"), ("beige", "neutro_claro"),
   ("creme", "neutro_claro"), ("marfim", "neutro_claro"),
   ("perola", "neutro_claro"),
   ("verde", "verde"), ("erva", "verde"), ("salvia", "verde"),
   ("selva", "verde"),
   ("azul", "azul"), ("petroleo", "azul"),
   ("chocolate", "marrom"), ("cafe", "marrom"), ("tabaco", "marrom")]

/-- `FINISH_GROUPS`. -/
def FINISH_GROUPS : List (List String) :=
  [["design", "essencial", "nature", "natura"],
   ["matt", "soft", "supermatte", "acetinatta"],
   ["chess", "trama", "pele"],
   ["lacca", "liso"],
   ["silk", "linho"]]

/-- The semantic attribute record built by `_extract_attributes`. -/
structure Attrs where
  category : Option String
  finish : String
  thickness : Option ℚ
  wood_family : Option String
  color_family : Option String
  brand : String
deriving DecidableEq, Repr

/-- First family whose keyword occurs in the lowercased name. -/
def familyLookup (table : List (String × String)) (name_lower : String) :
    Option String :=
  ((table.filter fun kv => strContains name_lower kv.1).head?).map
    fun kv => kv.2

/-- `_extract_attributes`. -/
def extract_attributes (p : Product) : Attrs :=
  let name_lower := pyLower p.product_name
  { category := p.category,
    finish := pyLower (p.finish.getD ""),
    thickness := p.thickness_mm,
    wood_family := familyLookup WOOD_FAMILIES name_lower,
    color_family := familyLookup COLOR_FAMILIES name_lower,
    brand := p.brand }

/-- Python truthiness of an optional string. -/
def truthyStr : Option String → Bool
  | none => false
  | some s => s ≠ ""

/-- Python truthiness of an optional number. -/
def truthyNum : Option ℚ → Bool
  | none => false
  | some q => q ≠ 0

/-- `_finishes_compatible`: both finishes contain a keyword of the
same finish group. -/
def finishes_compatible (finish_a finish_b : String) : Bool :=
  let a_lower := pyLower finish_a
  let b_lower := pyLower finish_b
  FINISH_GROUPS.any fun group =>
    (group.any fun kw => strContains a_lower kw) ∧
    (group.any fun kw => strContains b_lower kw)

/-- `_compute_attribute_score`: the sequential accumulation of the
source, with the early `return 0.0` on a hard category mismatch. -/
def compute_attribute_score (original candidate : Attrs) : ℚ :=
  let base : Option ℚ :=
    if original.category = candidate.category then some (3/10)
    else if original.category = some "outro" ∨
        candidate.category = some "outro" then some (1/10)
    else none
  match base with
  | none => 0
  | some s0 =>
    let s1 := s0 +
      (if truthyStr original.wood_family ∧ truthyStr candidate.wood_family then
        (if original.wood_family = candidate.wood_family then 3/10 else 1/20)
      else 0)
    let s2 := s1 +
      (if truthyStr original.color_family ∧ truthyStr candidate.color_family ∧
          original.color_family = candidate.color_family then (3:ℚ)/10 else 0)
    let s3 := s2 +
      (if original.finish ≠ "" ∧ candidate.finish ≠ "" then
        (if original.finish = candidate.finish then (1:ℚ)/10
         else if finishes_compatible original.finish candidate.finish then 1/20
         else 0)
      else 0)
    let s4 := s3 +
      (if truthyNum original.thickness ∧ truthyNum candidate.thickness ∧
          original.thickness = candidate.thickness then (1:ℚ)/10 else 0)
    min s4 1

/-- One pre-filtered candidate: the product, its rounded attribute
score, and its net availability. -/
structure Candidate where
  product : Product
  attribute_score : ℚ
  net_available : ℚ
deriving DecidableEq, Repr

/-- `_attribute_prefilter`: score all in-stock (or all active)
products, keep scores above 0.15, sort descending, cap at `limit`. -/
def attribute_prefilter (original : Product) (only_in_stock : Bool)
    (limit : Nat) (db : DB) : List Candidate :=
  let original_attrs := extract_attributes original
  let scored : List Candidate :=
    if only_in_stock then
      (get_products_in_stock DEFAULT_MIN_STOCK db).filterMap fun ps =>
        if ps.1.id = original.id then none
        else
          let score := compute_attribute_score original_attrs
            (extract_attributes ps.1)
          if 3/20 < score then
            some { product := ps.1, attribute_score := pyRound 3 score,
                   net_available :=
                     ps.2.quantity_available - ps.2.quantity_reserved }
          else none
    else
      (get_all_active_products db).filterMap fun p =>
        if p.id = original.id then none
        else
          let score := compute_attribute_score original_attrs
            (extract_attributes p)
          if 3/20 < score then
            some { product := p, attribute_score := pyRound 3 score,
                   net_available :=
                     match get_stock_by_product_id p.id db with
                     | some s => s.quantity_available - s.quantity_reserved
                     | none => 0 }
          else none
  (sortDescBy (fun c => c.attribute_score) scored).take limit

/-- One parsed entry of the knowledge-ranking JSON response, after the
field-name variations are collapsed (`index`/`candidato`,
`similarity_score`/`similaridade_visual`/`score`,
`justification`/`justificativa`/`reason`). -/
structure RankEntry where
  index : Int
  score : ℚ
  justification : String
deriving DecidableEq, Repr

/-- The external knowledge-ranking call: `none` models a raised
exception or an unparseable response (both fall back to attribute
scores). -/
structure SmartEnv where
  api_key_set : Bool
  engine : Product → List Candidate → Option (List RankEntry)

/-- One ranked alternative as returned by the service. -/
structure RankedAlt where
  product : Product
  similarity_score : ℚ
  justification : String
  net_available : ℚ
deriving DecidableEq, Repr

/-- The merge loop of `_claude_rank_alternatives` (lines 350-385):
1-based index into the candidate list, 0-100 scores rescaled to [0,1],
scores rounded to 2 digits. -/
def merge_rank_entries (candidates : List Candidate)
    (scores : List RankEntry) : List RankedAlt :=
  scores.filterMap fun e =>
    let idx : Int := e.index - 1
    let sim := if 1 < e.score then e.score / 100 else e.score
    if h : 0 ≤ idx ∧ idx.toNat < candidates.length then
      let c := candidates.get ⟨idx.toNat, h.2⟩
      some { product := c.product, similarity_score := pyRound 2 sim,
             justification := e.justification,
             net_available := c.net_available }
    else none

/-- `_claude_rank_alternatives`, paired with the number of knowledge
calls made (0 when the API key is missing, 1 otherwise). -/
def claude_rank_alternatives (env : SmartEnv) (original : Product)
    (candidates : List Candidate) : List RankedAlt × Nat :=
  if ¬env.api_key_set then ([], 0)
  else
    match env.engine original candidates with
    | none => ([], 1)
    | some scores => (merge_rank_entries candidates scores, 1)

/-- One joined row of `get_cached_similarities_for_product`. -/
structure CachedRow where
  sc : SimCacheRow
  product : Product
  stock : Option StockRow
deriving DecidableEq, Repr

/-- The joined rows one cache row contributes to
`get_cached_similarities_for_product`: nothing when the row does not
touch the product, otherwise one row per LEFT-JOINed stock entry of
the active product on the other side of the pair. -/
def cachedRowsFor (product_id : Nat) (db : DB) (sc : SimCacheRow) :
    List CachedRow :=
  if sc.product_id_a = product_id ∨ sc.product_id_b = product_id then
    match (db.products.filter fun p =>
        p.id = (if sc.product_id_a = product_id then sc.product_id_b
          else sc.product_id_a) ∧ p.is_active).head? with
    | none => []
    | some p =>
      (leftJoinStock p db).map fun s =>
        { sc := sc, product := p, stock := s }
  else []

/-- `get_cached_similarities_for_product`: cache rows touching the
product, joined with the active product on the other side, LEFT JOINed
with stock, kept at or above `min_score`, ordered by score
descending. -/
def get_cached_similarities_for_product (product_id : Nat) (min_score : ℚ)
    (db : DB) : List CachedRow :=
  sortDescBy (fun r => r.sc.similarity_score)
    ((db.similarity_cache.flatMap (cachedRowsFor product_id db)).filter
      fun r => min_score ≤ r.sc.similarity_score)

/-- The per-row body of `_filter_and_format_cached`: `None` for a row
dropped by the stock filter, otherwise the formatted result. -/
def formatCachedRow (only_in_stock : Bool) (r : CachedRow) :
    Option RankedAlt :=
  let qty_available := (r.stock.map fun s => s.quantity_available).getD 0
  let qty_reserved := (r.stock.map fun s => s.quantity_reserved).getD 0
  let net := qty_available - qty_reserved
  if only_in_stock ∧ net < DEFAULT_MIN_STOCK then none
  else
    some { product := r.product,
           similarity_score := r.sc.similarity_score,
           justification := r.sc.justification,
           net_available := net }

/-- `_filter_and_format_cached`: drop rows without enough net stock
(when requested), compute net availability, sort by cached score. -/
def filter_and_format_cached (cached : List CachedRow)
    (only_in_stock : Bool) : List RankedAlt :=
  sortDescBy (fun r => r.similarity_score)
    (cached.filterMap (formatCachedRow only_in_stock))

/-- The fallback justification of `find_smart_alternatives`
(line 150). -/
def fallbackRanked (c : Candidate) : RankedAlt :=
  { product := c.product, similarity_score := c.attribute_score,
    justification := "Similar por categoria (" ++
      (match c.product.category with | some s => s | none => "None") ++
      ") e atributos.",
    net_available := c.net_available }

/-- Outcome of `find_smart_alternatives`: an error payload or the
ranked list. -/
inductive SmartOutcome
  | error (message : String)
  | results (rs : List RankedAlt)
deriving DecidableEq, Repr

structure SmartReturn where
  outcome : SmartOutcome
  db : DB
  knowledge_calls : Nat
deriving Repr

/-- `find_smart_alternatives(product_id, max_results, only_in_stock)`:
cache-first lookup, then attribute pre-filter, knowledge ranking (with
attribute-score fallback), caching of every scored result, and the
final descending sort capped at `max_results`.  The returned triple
carries the updated store and the number of knowledge calls made. -/
def find_smart_alternatives (env : SmartEnv) (product_id : Nat)
    (max_results : Nat) (only_in_stock : Bool) (db : DB) : SmartReturn :=
  let cached := get_cached_similarities_for_product product_id (3/10) db
  let cachedResults := filter_and_format_cached cached only_in_stock
  if ¬cached.isEmpty ∧ ¬cachedResults.isEmpty then
    { outcome := .results (cachedResults.take max_results), db := db,
      knowledge_calls := 0 }
  else
    match get_product_by_id product_id db with
    | none =>
      { outcome := .error "Produto nao encontrado.", db := db,
        knowledge_calls := 0 }
    | some original =>
      let candidates := attribute_prefilter original only_in_stock 20 db
      if candidates.isEmpty then
        { outcome := .error
            ("Nenhum produto similar encontrado em estoque na categoria " ++
              (match original.category with | some s => s | none => "N/A") ++
              "."),
          db := db, knowledge_calls := 0 }
      else
        let rk := claude_rank_alternatives env original candidates
        let ranked := if rk.1.isEmpty then candidates.map fallbackRanked
          else rk.1
        let db2 := ranked.foldl
          (fun d r => save_similarity_cache product_id r.product.id
            r.similarity_score r.justification d)
          db
        { outcome :=
            .results ((sortDescBy (fun r => r.similarity_score) ranked).take
              max_results),
          db := db2, knowledge_calls := rk.2 }

/-- Keyword-argument dispatch of `check_stock`
(`handler(**tool_block.input)` on line 123 binding
`_handle_check_stock(self, product_id: int)`, line 170): a key other
than `product_id` or a missing `product_id` raises `TypeError`, which
the dispatch boundary converts to an error payload; the handler calls
`check_availability(product_id)` with `include_other_locations` left
at its `False` default.  (Only the integer inputs declared by the
schema are modelled.) -/
def dispatch_check_stock (db : DB) (input : ToolInput) :
    Except String StockCheck :=
  if ¬input.all fun kv => kv.1 = "product_id" then
    .error ("TypeError: _handle_check_stock() got an unexpected " ++
      "keyword argument")
  else
    match input.lookup "product_id" with
    | some (.int n) => .ok (check_availability n.toNat false db)
    | _ =>
      .error ("TypeError: _handle_check_stock() missing 1 required " ++
        "positional argument: product_id")

/-! ## Concrete fixtures shared by the witnesses and counterexamples -/

/-- Concrete product used by several witnesses. -/
def productDtxCarvalho : Product :=
  { id := 2, brand := "Duratex", product_name := "Carvalho Hanover",
    product_code := "DTX_CARVALHO", thickness_mm := some 15,
    finish := some "essencial", color_family := none,
    category := some "madeirado", is_active := true }

/-- A small concrete store used by counterexamples and witnesses. -/
def dbC2 : DB :=
  { products := [productDtxCarvalho],
    stock := [
      { product_id := 2, location := "principal", quantity_available := 10,
        quantity_reserved := 2, minimum_stock := 0, unit := "chapa" }],
    direct_equivalences := [], similarity_cache := [] }

/-- A degenerate external similarity scorer (scores everything 0),
used by witnesses that never reach the fuzzy strategies. -/
def fzZero : Fuzz :=
  { tokenSortScore := fun _ _ => 0, simpleScore := fun _ _ => 0 }

/-- The Phase-1 score as the spec words it: a weighted sum of category
(0.30 equal / 0.10 when either side is the catch-all "outro" /
disqualifying otherwise), wood family (0.30 exact, 0.05 both known but
different), color family (0.30 exact only), finish (0.10 exact, 0.05
same finish group) and thickness (0.10 exact), capped at 1.0. -/
def attributeScoreSpec (o c : Attrs) : ℚ :=
  if o.category ≠ c.category ∧ o.category ≠ some "outro" ∧
      c.category ≠ some "outro" then 0
  else
    let categoryTerm : ℚ := if o.category = c.category then 3/10 else 1/10
    let woodTerm : ℚ :=
      if truthyStr o.wood_family ∧ truthyStr c.wood_family then
        (if o.wood_family = c.wood_family then 3/10 else 1/20)
      else 0
    let colorTerm : ℚ :=
      if truthyStr o.color_family ∧ truthyStr c.color_family ∧
          o.color_family = c.color_family then (3:ℚ)/10 else 0
    let finishTerm : ℚ :=
      if o.finish ≠ "" ∧ c.finish ≠ "" then
        (if o.finish = c.finish then (1:ℚ)/10
         else if finishes_compatible o.finish c.finish then 1/20 else 0)
      else 0
    let thicknessTerm : ℚ :=
      if truthyNum o.thickness ∧ truthyNum c.thickness ∧
          o.thickness = c.thickness then (1:ℚ)/10 else 0
    min (categoryTerm + woodTerm + colorTerm + finishTerm + thicknessTerm) 1

/-- A unicolor original whose name yields color family "cinza" and no
wood family. -/
def productCinzaSagrado : Product :=
  { id := 10, brand := "Duratex", product_name := "Cinza Sagrado",
    product_code := "DTX_CINZA_SAG", thickness_mm := none, finish := none,
    color_family := none, category := some "unicolor", is_active := true }

/-- A unicolor candidate matching the original color family. -/
def productCinzaUrbano : Product :=
  { id := 11, brand := "Eucatex", product_name := "Cinza Urbano",
    product_code := "EUC_CINZA_URB", thickness_mm := none, finish := none,
    color_family := none, category := some "unicolor", is_active := true }

/-- A unicolor candidate differing only in color family ("branco"). -/
def productBrancoNeve : Product :=
  { id := 12, brand := "Arauco", product_name := "Branco Neve",
    product_code := "ARA_BRANCO_NEVE", thickness_mm := none, finish := none,
    color_family := none, category := some "unicolor", is_active := true }

/-- A product in a different (non catch-all) category. -/
def productCarvalhoMadeirado : Product :=
  { id := 13, brand := "Duratex", product_name := "Carvalho Hanover",
    product_code := "DTX_CARV_HAN", thickness_mm := none, finish := none,
    color_family := none, category := some "madeirado", is_active := true }

/-- One equivalence insertion request (a resolved row of an import
file or of the preload similarity table). -/
structure EquivInsert where
  pa : Nat
  pb : Nat
  source : Option String
  confidence : ℚ
deriving DecidableEq, Repr

/-- A sequence of insertions through the shared canonicalised
insertion path. -/
def applyEquivInserts (ops : List EquivInsert) (tbl : List EquivRow) :
    List EquivRow :=
  ops.foldl
    (fun t op =>
      insert_direct_equivalence op.pa op.pb op.source op.confidence t)
    tbl

/-- First insertion of the C7 witness: the pair in direction (2,1). -/
def opC7a : EquivInsert :=
  { pa := 2, pb := 1, source := some "tabela", confidence := 1 }

/-- Second insertion of the C7 witness: the reversed direction. -/
def opC7b : EquivInsert :=
  { pa := 1, pb := 2, source := none, confidence := 1 }

/-- The two insertions of the C7 witness. -/
def opsC7 : List EquivInsert := [opC7a, opC7b]

/-- Store holding two active products and the equivalences produced by
the C7 witness insertions. -/
def dbC7 : DB :=
  { products := [
      { id := 1, brand := "Duratex", product_name := "Carvalho Hanover",
        product_code := "DTX_CARVALHO", thickness_mm := some 15,
        finish := none, color_family := none,
        category := some "madeirado", is_active := true },
      { id := 2, brand := "Guararapes", product_name := "Rovere Soft",
        product_code := "GUA_ROVERE", thickness_mm := some 15,
        finish := none, color_family := none,
        category := some "madeirado", is_active := true }],
    stock := [],
    direct_equivalences := applyEquivInserts opsC7 [],
    similarity_cache := [] }

/-- Store for the thickness-boundary witness: three products whose
thicknesses are 15, 15.1 and 15.1001 mm. -/
def dbC9 : DB :=
  { products := [
      { id := 1, brand := "Duratex", product_name := "Carvalho Hanover",
        product_code := "DTX_CARV_H", thickness_mm := some 15,
        finish := none, color_family := none,
        category := some "madeirado", is_active := true },
      { id := 2, brand := "Guararapes", product_name := "Carvalho Malva",
        product_code := "GUA_MALVA", thickness_mm := some (151/10),
        finish := none, color_family := none,
        category := some "madeirado", is_active := true },
      { id := 3, brand := "Eucatex", product_name := "Carvalho Oslo",
        product_code := "EUC_OSLO", thickness_mm := some (151001/10000),
        finish := none, color_family := none,
        category := some "madeirado", is_active := true }],
    stock := [], direct_equivalences := [], similarity_cache := [] }

/-- A product whose thickness is 15.1 mm (0.1 from 15). -/
def productMalva : Product :=
  { id := 2, brand := "Guararapes", product_name := "Carvalho Malva",
    product_code := "GUA_MALVA", thickness_mm := some (151/10),
    finish := none, color_family := none, category := some "madeirado",
    is_active := true }

/-- A product whose thickness is 15.1001 mm (0.1001 from 15). -/
def productOslo : Product :=
  { id := 3, brand := "Eucatex", product_name := "Carvalho Oslo",
    product_code := "EUC_OSLO", thickness_mm := some (151001/10000),
    finish := none, color_family := none, category := some "madeirado",
    is_active := true }

/-- A search result carrying the 15.1 mm product. -/
def resultMalva : SearchResult :=
  { product := productMalva, match_score := 0, match_type := "name_match",
    quantity_available := 0, quantity_reserved := 0,
    location := "principal", in_stock := false,
    requested_thickness_mm := none, thickness_match := none }

/-- A search result carrying the 15.1001 mm product. -/
def resultOslo : SearchResult :=
  { product := productOslo, match_score := 0, match_type := "name_match",
    quantity_available := 0, quantity_reserved := 0,
    location := "principal", in_stock := false,
    requested_thickness_mm := none, thickness_match := none }

/-! ## C8 fixtures and saved-row views -/

/-- The cache row written by the save loop of `find_smart_alternatives`
for one ranked result. -/
def savedRow (pid : Nat) (r : RankedAlt) : SimCacheRow :=
  { product_id_a := pid, product_id_b := r.product.id,
    similarity_score := r.similarity_score,
    justification := r.justification }

/-- The joined row a saved cache entry contributes to a later cache
lookup, given the candidate product's unique stock row. -/
def savedCachedRow (pid : Nat) (stockOf : RankedAlt → StockRow)
    (r : RankedAlt) : CachedRow :=
  { sc := savedRow pid r, product := r.product,
    stock := some (stockOf r) }

/-- C8 original product (no stock row of its own). -/
def productC8orig : Product :=
  { id := 1, brand := "Duratex", product_name := "Chapa Um",
    product_code := "C8A", thickness_mm := some 15,
    finish := some "matt", color_family := none,
    category := some "madeirado", is_active := true }

/-- C8 candidate product, in stock at the primary location. -/
def productC8cand : Product :=
  { id := 2, brand := "Eucatex", product_name := "Chapa Dois",
    product_code := "C8B", thickness_mm := some 15,
    finish := some "matt", color_family := none,
    category := some "madeirado", is_active := true }

/-- The single stock row of the C8 store (net 10 for product 2). -/
def stockC8 : StockRow :=
  { product_id := 2, location := "principal", quantity_available := 10,
    quantity_reserved := 0, minimum_stock := 0, unit := "chapa" }

/-- C8 store: two active products, one stock row, empty caches. -/
def dbC8 : DB :=
  { products := [productC8orig, productC8cand], stock := [stockC8],
    direct_equivalences := [], similarity_cache := [] }

/-- The one pre-filtered C8 candidate (attribute score 0.5). -/
def candC8 : Candidate :=
  { product := productC8cand, attribute_score := 1/2, net_available := 10 }

/-- The ranked alternative produced by the high-scoring engine. -/
def rankedC8 : RankedAlt :=
  { product := productC8cand, similarity_score := 1,
    justification := "Compativel com a chapa original.",
    net_available := 10 }

/-- The ranked alternative produced by the low-scoring engine. -/
def rankedC8low : RankedAlt :=
  { product := productC8cand, similarity_score := 1/5,
    justification := "Pouco compativel.", net_available := 10 }

/-- Knowledge-ranking response entry scoring the candidate 1.0. -/
def rkEntryC8 : RankEntry :=
  { index := 1, score := 1,
    justification := "Compativel com a chapa original." }

/-- Knowledge-ranking response entry scoring the candidate 0.2 —
below the 0.3 cache-lookup floor. -/
def rkEntryC8low : RankEntry :=
  { index := 1, score := 1/5, justification := "Pouco compativel." }

/-- Environment whose knowledge ranking returns score 1.0. -/
def envC8 : SmartEnv :=
  { api_key_set := true, engine := fun _ _ => some [rkEntryC8] }

/-- Environment whose knowledge ranking returns score 0.2. -/
def envC8low : SmartEnv :=
  { api_key_set := true, engine := fun _ _ => some [rkEntryC8low] }

/-- The cache row saved by the first low-scoring call. -/
def simRowC8low : SimCacheRow :=
  { product_id_a := 1, product_id_b := 2, similarity_score := 1/5,
    justification := "Pouco compativel." }

/-- The store after the first low-scoring call. -/
def dbC8low2 : DB := { dbC8 with similarity_cache := [simRowC8low] }

/-! # Theorems -/

/-! ## C2 — the check_stock tool surface -/

/-- C2 (counterexample): the registered `check_stock` tool schema
declares only `product_id` — no `include_other_locations` property —
and dispatching `check_stock` with the flag set produces a TypeError
error payload instead of an availability response. -/
theorem c2_counterexample :
    (∀ t ∈ TOOLS, t.name = "check_stock" →
      t.properties = ["product_id"] ∧
      ¬"include_other_locations" ∈ t.properties) ∧
    dispatch_check_stock dbC2
      [("product_id", .int 2), ("include_other_locations", .bool true)] =
      .error ("TypeError: _handle_check_stock() got an unexpected " ++
        "keyword argument") := by
  constructor
  · decide
  · rfl

/-- C2 (amended): the `check_stock` tool takes only `product_id`;
dispatching it performs the stock check at the primary location with
`include_other_locations` left `False`, returning net availability
(available minus reserved) and the in-stock flag, and never includes
other-location stock. -/
theorem c2_check_stock_dispatch (db : DB) (pid : Nat) :
    dispatch_check_stock db [("product_id", .int (pid : Int))] =
      .ok (check_availability pid false db) ∧
    (∀ info, check_availability pid false db = .ok info →
      info.net_available = info.quantity_available - info.quantity_reserved ∧
      info.in_stock = decide (DEFAULT_MIN_STOCK ≤ info.net_available) ∧
      info.other_locations = none) := by
  constructor
  · simp [dispatch_check_stock, List.lookup]
  · intro info h
    unfold check_availability at h
    cases hm : get_product_with_stock_at pid PRIMARY_LOCATION db with
    | none => rw [hm] at h; exact absurd h (by simp)
    | some ps =>
      rw [hm] at h
      simp only [StockCheck.ok.injEq] at h
      subst h
      refine ⟨rfl, rfl, rfl⟩

/-- C2 witness: the amended dispatch theorem at product 2 of the
concrete store. -/
theorem c2_check_stock_dispatch_witness :
    dispatch_check_stock dbC2 [("product_id", .int 2)] =
      .ok (check_availability 2 false dbC2) ∧
    ∃ info, check_availability 2 false dbC2 = .ok info ∧
      info.net_available = 8 ∧ info.in_stock = true ∧
      info.other_locations = none := by
  obtain ⟨hd, h2⟩ := c2_check_stock_dispatch dbC2 2
  have hm : check_availability 2 false dbC2 = .ok
      { product_id := 2, product_code := "DTX_CARVALHO",
        product_name := "Carvalho Hanover", brand := "Duratex",
        quantity_available := 10, quantity_reserved := 2, net_available := 8,
        in_stock := true, is_low_stock := false, minimum_stock := 0,
        location := some "principal", unit := some "chapa",
        other_locations := none } := by
    norm_num [check_availability, get_product_with_stock_at,
      get_stock_at_location, dbC2, productDtxCarvalho, PRIMARY_LOCATION,
      DEFAULT_MIN_STOCK]
  obtain ⟨ha, hb, hc⟩ := h2 _ hm
  exact ⟨hd, _, hm, rfl, rfl, hc⟩

/-! ## C3 — the search_web_mdf dispatch calls a function that the
web-search module does not define -/

/-- C3 (code bug): for every product name and brand, the orchestrator
handler for `search_web_mdf` resolves the module attribute
`search_mdf_references`, which `web_search_service` does not define
(its resolver is named `search_web_and_cross_reference`), so dispatch
raises AttributeError and the turn gets a generic error payload rather
than the resolver payload of local matches, web references and
summary. -/
theorem c3_web_search_dispatch_attribute_error (w : WebWorld) (fz : Fuzz)
    (db : DB) (product_name brand : String) :
    handle_search_web_mdf w fz db product_name brand =
      .error ("AttributeError: module src.services.web_search_service " ++
        "has no attribute search_mdf_references") ∧
    web_search_service_attr "search_mdf_references" = none ∧
    web_search_service_attr "search_web_and_cross_reference" =
      some search_web_and_cross_reference := by
  refine ⟨?_, ?_, ?_⟩
  · simp [handle_search_web_mdf, web_search_service_attr]
  · simp [web_search_service_attr]
  · simp [web_search_service_attr]

/-! ## C5 — per-call isolation in one tool round -/

/-- C5: a tool call whose handler raises gets the error converted into
its own result slot; every sibling call in the same round is still
dispatched, a successful sibling is present as a successful payload,
and the whole round is appended to the history sent back to the
reasoning engine — the turn is not aborted. -/
theorem c5_per_call_isolation (handlers : Handlers)
    (b1 b2 : ToolUseBlock) (h1 h2 : ToolInput → Except String String)
    (e payload : String)
    (hb1 : handlers b1.name = some h1) (hraise : h1 b1.input = .error e)
    (hb2 : handlers b2.name = some h2) (hok : h2 b2.input = .ok payload) :
    (∀ pre post : List ToolUseBlock,
      round_results handlers (pre ++ b2 :: post) =
        round_results handlers pre ++
          { tool_use_id := b2.id, content := .payload payload } ::
          round_results handlers post) ∧
    round_results handlers [b1, b2] =
      [{ tool_use_id := b1.id, content := .errorPayload e },
       { tool_use_id := b2.id, content := .payload payload }] ∧
    (∀ (engine : Engine) (fuel : Nat) (hist : List Message),
      toolUseBlocks (engine hist) = [b1, b2] →
      process_loop engine handlers (fuel + 1) hist =
        process_loop engine handlers fuel
          (hist ++ [assistantMsg (engine hist), toolResultsMsg
            [{ tool_use_id := b1.id, content := .errorPayload e },
             { tool_use_id := b2.id, content := .payload payload }]])) := by
  have hd1 : dispatch_tool_call handlers b1 =
      { tool_use_id := b1.id, content := .errorPayload e } := by
    simp [dispatch_tool_call, hb1, hraise]
  have hd2 : dispatch_tool_call handlers b2 =
      { tool_use_id := b2.id, content := .payload payload } := by
    simp [dispatch_tool_call, hb2, hok]
  refine ⟨?_, ?_, ?_⟩
  · intro pre post
    simp [round_results, hd2]
  · simp [round_results, hd1, hd2]
  · intro engine fuel hist hresp
    conv_lhs => rw [process_loop]
    rw [hresp]
    simp [round_results, hd1, hd2]

/-- C5 witness: a concrete round with a raising handler and a
successful sibling. -/
theorem c5_per_call_isolation_witness :
    round_results
      (fun name =>
        if name = "boom" then some (fun _ => Except.error "division by zero")
        else if name = "check_stock" then some (fun _ => Except.ok "payload ok")
        else none)
      [{ id := "call_1", name := "boom", input := [] },
       { id := "call_2", name := "check_stock", input := [] }] =
      [{ tool_use_id := "call_1",
         content := .errorPayload "division by zero" },
       { tool_use_id := "call_2", content := .payload "payload ok" }] := by
  have h := c5_per_call_isolation
    (fun name =>
      if name = "boom" then some (fun _ => Except.error "division by zero")
      else if name = "check_stock" then some (fun _ => Except.ok "payload ok")
      else none)
    { id := "call_1", name := "boom", input := [] }
    { id := "call_2", name := "check_stock", input := [] }
    (fun _ => Except.error "division by zero")
    (fun _ => Except.ok "payload ok")
    "division by zero" "payload ok"
    (by simp) (by simp) (by simp) (by simp)
  exact h.2.1

/-! ## C4 — bounded orchestrator loop with fallback on exhaustion -/

theorem process_loop_always_tools (engine : Engine) (handlers : Handlers)
    (h : ∀ msgs, (toolUseBlocks (engine msgs)).isEmpty = false) :
    ∀ (fuel : Nat) (hist : List Message),
      (process_loop engine handlers fuel hist).1 = FALLBACK_MESSAGE ∧
      ∃ ext, (process_loop engine handlers fuel hist).2 = hist ++ ext ∧
        ext.length = 2 * fuel := by
  intro fuel
  induction fuel with
  | zero =>
    intro hist
    exact ⟨rfl, [], by simp [process_loop], rfl⟩
  | succ n ih =>
    intro hist
    have hstep : process_loop engine handlers (n + 1) hist =
        process_loop engine handlers n
          (hist ++ [assistantMsg (engine hist), toolResultsMsg
            (round_results handlers (toolUseBlocks (engine hist)))]) := by
      conv_lhs => rw [process_loop]
      simp [h hist]
    obtain ⟨ha, ext, hb, hc⟩ := ih
      (hist ++ [assistantMsg (engine hist), toolResultsMsg
        (round_results handlers (toolUseBlocks (engine hist)))])
    rw [hstep]
    refine ⟨ha,
      [assistantMsg (engine hist), toolResultsMsg
        (round_results handlers (toolUseBlocks (engine hist)))] ++ ext,
      ?_, ?_⟩
    · rw [hb, List.append_assoc]
    · simp only [List.length_append, List.length_cons, List.length_nil, hc]
      omega

theorem process_loop_history_bound (engine : Engine) (handlers : Handlers) :
    ∀ (fuel : Nat) (hist : List Message),
      (process_loop engine handlers fuel hist).2.length ≤
        hist.length + 2 * fuel + 1 := by
  intro fuel
  induction fuel with
  | zero => intro hist; simp [process_loop]
  | succ n ih =>
    intro hist
    rw [process_loop]
    by_cases htub : (toolUseBlocks (engine hist)).isEmpty
    · simp only [htub, if_true]
      simp
    · simp only [htub, Bool.false_eq_true, if_false]
      have := ih
        (hist ++ [assistantMsg (engine hist), toolResultsMsg
          (round_results handlers (toolUseBlocks (engine hist)))])
      simp at this
      omega

/-- C4: the loop runs at most the configured 8 iterations whatever the
reasoning engine does (the history grows by at most two messages per
iteration plus one final answer), and against an engine that requests
a tool call on every response it exhausts the budget and returns the
fixed fallback message together with the accumulated history (the
input history, the user message, and two messages per iteration). -/
theorem c4_loop_termination (engine : Engine) (handlers : Handlers)
    (user_message : String) (history : List Message)
    (h : ∀ msgs, (toolUseBlocks (engine msgs)).isEmpty = false) :
    (process_message engine handlers user_message history).1 =
      FALLBACK_MESSAGE ∧
    (∃ ext,
      (process_message engine handlers user_message history).2 =
        history ++ userTextMsg user_message :: ext ∧
      ext.length = 2 * MAX_ITERATIONS) ∧
    (∀ engine2 : Engine,
      (process_message engine2 handlers user_message history).2.length ≤
        history.length + 2 * MAX_ITERATIONS + 2) := by
  obtain ⟨h1, ext, h2, h3⟩ := process_loop_always_tools engine handlers h
    MAX_ITERATIONS (history ++ [userTextMsg user_message])
  refine ⟨h1, ⟨ext, ?_, h3⟩, ?_⟩
  · unfold process_message
    rw [h2, List.append_assoc]
    rfl
  · intro engine2
    have := process_loop_history_bound engine2 handlers MAX_ITERATIONS
      (history ++ [userTextMsg user_message])
    unfold process_message
    simp at this ⊢
    omega

/-- C4 witness: an engine stub that always requests a tool call makes
the loop terminate with the fallback message and 17 accumulated
messages. -/
theorem c4_loop_termination_witness :
    (process_message
      (fun _ => [.tool_use { id := "t", name := "search_product",
                             input := [] }])
      (fun _ => none) "preciso de um MDF" []).1 = FALLBACK_MESSAGE ∧
    (process_message
      (fun _ => [.tool_use { id := "t", name := "search_product",
                             input := [] }])
      (fun _ => none) "preciso de um MDF" []).2.length = 17 := by
  obtain ⟨h1, ⟨ext, h2, h3⟩, _⟩ := c4_loop_termination
    (fun _ => [.tool_use { id := "t", name := "search_product",
                           input := [] }])
    (fun _ => none) "preciso de um MDF" []
    (fun _ => by simp [toolUseBlocks])
  refine ⟨h1, ?_⟩
  rw [h2]
  simp [h3, MAX_ITERATIONS]

/-! ## C10 — similarity-cache keying -/

/-- C10 (counterexample): `save_similarity_cache` does not canonicalise
the pair and the UNIQUE constraint is on the ordered pair, so saving
(1,2) and then (2,1) leaves two cache entries for the unordered pair
{1,2}. -/
theorem c10_counterexample :
    ((save_similarity_cache 2 1 1 "b"
        (save_similarity_cache 1 2 0 "a"
          { products := [], stock := [], direct_equivalences := [],
            similarity_cache := [] })).similarity_cache.filter fun r =>
      (r.product_id_a = 1 ∧ r.product_id_b = 2) ∨
      (r.product_id_a = 2 ∧ r.product_id_b = 1)).length = 2 := by
  decide

/-- C10 (amended): the cache lookup is symmetric — a score saved for
(A, B) into a store with no entry for the unordered pair is returned
both by a lookup for (A, B) and by a lookup for (B, A) — and saves
keep at most one entry per ordered pair (`INSERT OR REPLACE` under
UNIQUE(product_id_a, product_id_b)); but saves in the two directions
produce two entries for the same unordered pair. -/
theorem c10_cache_symmetric_lookup :
    (∀ (a b : Nat) (s : ℚ) (j : String) (db : DB),
      (∀ r ∈ db.similarity_cache,
        ¬((r.product_id_a = a ∧ r.product_id_b = b) ∨
          (r.product_id_a = b ∧ r.product_id_b = a))) →
      get_cached_similarity a b (save_similarity_cache a b s j db) =
        some { product_id_a := a, product_id_b := b,
               similarity_score := s, justification := j } ∧
      get_cached_similarity b a (save_similarity_cache a b s j db) =
        some { product_id_a := a, product_id_b := b,
               similarity_score := s, justification := j }) ∧
    (∀ (a b : Nat) (s : ℚ) (j : String) (db : DB),
      ((db.similarity_cache.map fun r =>
        (r.product_id_a, r.product_id_b)).Nodup) →
      (((save_similarity_cache a b s j db).similarity_cache.map fun r =>
        (r.product_id_a, r.product_id_b)).Nodup)) := by
  constructor
  · intro a b s j db hfresh
    have hold : ∀ r ∈ db.similarity_cache.filter fun r =>
        ¬(r.product_id_a = a ∧ r.product_id_b = b), True := fun _ _ => trivial
    constructor
    · simp only [get_cached_similarity, save_similarity_cache,
        List.filter_append]
      have h1 : (db.similarity_cache.filter fun r =>
          ¬(r.product_id_a = a ∧ r.product_id_b = b)).filter (fun r =>
            decide ((r.product_id_a = a ∧ r.product_id_b = b) ∨
              (r.product_id_a = b ∧ r.product_id_b = a))) = [] := by
        rw [List.filter_eq_nil_iff]
        intro r hr
        have hr2 := List.mem_of_mem_filter hr
        simpa using hfresh r hr2
      rw [h1]
      simp
    · simp only [get_cached_similarity, save_similarity_cache,
        List.filter_append]
      have h1 : (db.similarity_cache.filter fun r =>
          ¬(r.product_id_a = a ∧ r.product_id_b = b)).filter (fun r =>
            decide ((r.product_id_a = b ∧ r.product_id_b = a) ∨
              (r.product_id_a = a ∧ r.product_id_b = b))) = [] := by
        rw [List.filter_eq_nil_iff]
        intro r hr
        have hr2 := List.mem_of_mem_filter hr
        have := hfresh r hr2
        simp at this ⊢
        tauto
      rw [h1]
      simp
  · intro a b s j db hnodup
    simp only [save_similarity_cache, List.map_append]
    rw [List.nodup_append]
    refine ⟨?_, by simp, ?_⟩
    · exact hnodup.sublist ((List.filter_sublist _).map _)
    · intro x hx
      simp only [List.mem_map] at hx
      obtain ⟨r, hr, hxr⟩ := hx
      have hpred : ¬(r.product_id_a = a ∧ r.product_id_b = b) := by
        have := List.of_mem_filter hr
        simp at this
        tauto
      simp only [List.map_cons, List.map_nil, List.mem_cons,
        List.not_mem_nil, or_false]
      intro hcontra
      apply hpred
      have heq : (r.product_id_a, r.product_id_b) = (a, b) := by
        rw [hxr]; exact hcontra
      simp only [Prod.mk.injEq] at heq
      exact heq

/-- C10 witness: the amended lookup facts at the pair (1,2) over an
empty store, and ordered-pair uniqueness on a concrete one-row store. -/
theorem c10_cache_symmetric_lookup_witness :
    (get_cached_similarity 1 2 (save_similarity_cache 1 2 1 "igual"
        { products := [], stock := [], direct_equivalences := [],
          similarity_cache := [] }) =
      some { product_id_a := 1, product_id_b := 2, similarity_score := 1,
             justification := "igual" } ∧
     get_cached_similarity 2 1 (save_similarity_cache 1 2 1 "igual"
        { products := [], stock := [], direct_equivalences := [],
          similarity_cache := [] }) =
      some { product_id_a := 1, product_id_b := 2, similarity_score := 1,
             justification := "igual" }) ∧
    (((save_similarity_cache 1 2 1 "igual"
        { products := [], stock := [], direct_equivalences := [],
          similarity_cache :=
            [{ product_id_a := 3, product_id_b := 4, similarity_score := 1,
               justification := "x" }] }).similarity_cache.map fun r =>
      (r.product_id_a, r.product_id_b)).Nodup) := by
  constructor
  · exact c10_cache_symmetric_lookup.1 1 2 1 "igual" _ (by simp)
  · exact c10_cache_symmetric_lookup.2 1 2 1 "igual" _ (by simp)

/-! ## Sorting helper lemmas -/

theorem mem_insertDescBy {α : Type} (key : α → ℚ) (x y : α) (l : List α) :
    y ∈ insertDescBy key x l ↔ y = x ∨ y ∈ l := by
  induction l with
  | nil => simp [insertDescBy]
  | cons z zs ih =>
    by_cases h : key z ≤ key x
    · simp [insertDescBy, h]
    · simp [insertDescBy, h, ih]
      tauto

theorem mem_sortDescBy {α : Type} (key : α → ℚ) (y : α) (l : List α) :
    y ∈ sortDescBy key l ↔ y ∈ l := by
  induction l with
  | nil => simp [sortDescBy]
  | cons z zs ih =>
    simp [sortDescBy, mem_insertDescBy, ih]

/-! ## C6 — Phase-1 attribute similarity score -/

/-- C6: the Phase-1 attribute score equals the spec weighted sum for
all attribute records; a category mismatch with neither side the
catch-all yields score 0 and the candidate is excluded by the
pre-filter; for the unicolor original and the two unicolor candidates
differing only in color family, the color-matching candidate scores
0.60 and the other 0.30. -/
theorem c6_attribute_score :
    (∀ o c : Attrs, compute_attribute_score o c = attributeScoreSpec o c) ∧
    (∀ o c : Attrs, o.category ≠ c.category → o.category ≠ some "outro" →
      c.category ≠ some "outro" → compute_attribute_score o c = 0) ∧
    (∀ (original p : Product) (only_in_stock : Bool) (limit : Nat) (db : DB),
      original.category ≠ p.category → original.category ≠ some "outro" →
      p.category ≠ some "outro" →
      ∀ cand ∈ attribute_prefilter original only_in_stock limit db,
        cand.product ≠ p) ∧
    compute_attribute_score (extract_attributes productCinzaSagrado)
      (extract_attributes productCinzaUrbano) = 3/5 ∧
    compute_attribute_score (extract_attributes productCinzaSagrado)
      (extract_attributes productBrancoNeve) = 3/10 := by
  have hspec : ∀ o c : Attrs,
      compute_attribute_score o c = attributeScoreSpec o c := by
    intro o c
    unfold compute_attribute_score attributeScoreSpec
    by_cases h1 : o.category = c.category
    · simp [h1]
    · by_cases h2 : o.category = some "outro" ∨ c.category = some "outro"
      · rcases h2 with h2 | h2 <;> simp [h1, h2] <;> split_ifs <;> rfl
      · push_neg at h2
        simp [h1, h2.1, h2.2]
  have hzero : ∀ o c : Attrs, o.category ≠ c.category →
      o.category ≠ some "outro" → c.category ≠ some "outro" →
      compute_attribute_score o c = 0 := by
    intro o c h1 h2 h3
    unfold compute_attribute_score
    simp [h1, h2, h3]
  refine ⟨hspec, hzero, ?_, ?_, ?_⟩
  · intro original p only_in_stock limit db h1 h2 h3 cand hc heq
    have hcat : (extract_attributes original).category ≠
        (extract_attributes p).category := h1
    have hscore : compute_attribute_score (extract_attributes original)
        (extract_attributes p) = 0 := hzero _ _ h1 h2 h3
    unfold attribute_prefilter at hc
    have hmem := (mem_sortDescBy _ _ _).1 (List.take_subset _ _ hc)
    cases only_in_stock with
    | true =>
      simp only [if_true] at hmem
      rw [List.mem_filterMap] at hmem
      obtain ⟨ps, hps, hf⟩ := hmem
      split at hf
      · exact absurd hf (by simp)
      · split at hf
        next hsc =>
          rw [Option.some.injEq] at hf
          have hprod : cand.product = ps.1 := by rw [← hf]
          rw [hprod] at heq
          rw [heq] at hsc
          rw [hscore] at hsc
          norm_num at hsc
        next => exact absurd hf (by simp)
    | false =>
      simp only [Bool.false_eq_true, if_false] at hmem
      rw [List.mem_filterMap] at hmem
      obtain ⟨q, hq, hf⟩ := hmem
      split at hf
      · exact absurd hf (by simp)
      · split at hf
        next hsc =>
          rw [Option.some.injEq] at hf
          have hprod : cand.product = q := by rw [← hf]
          rw [hprod] at heq
          rw [heq] at hsc
          rw [hscore] at hsc
          norm_num at hsc
        next => exact absurd hf (by simp)
  · have e1 : extract_attributes productCinzaSagrado =
        { category := some "unicolor", finish := "", thickness := none,
          wood_family := none, color_family := some "cinza",
          brand := "Duratex" } := by decide
    have e2 : extract_attributes productCinzaUrbano =
        { category := some "unicolor", finish := "", thickness := none,
          wood_family := none, color_family := some "cinza",
          brand := "Eucatex" } := by decide
    rw [e1, e2]
    simp [compute_attribute_score, truthyStr, truthyNum]
    norm_num [min_def]
  · have e1 : extract_attributes productCinzaSagrado =
        { category := some "unicolor", finish := "", thickness := none,
          wood_family := none, color_family := some "cinza",
          brand := "Duratex" } := by decide
    have e3 : extract_attributes productBrancoNeve =
        { category := some "unicolor", finish := "", thickness := none,
          wood_family := none, color_family := some "branco",
          brand := "Arauco" } := by decide
    rw [e1, e3]
    simp [compute_attribute_score, truthyStr, truthyNum]
    norm_num [min_def]

/-- C6 witness: the general clauses of the score theorem applied at
the concrete unicolor/madeirado products. -/
theorem c6_attribute_score_witness :
    compute_attribute_score (extract_attributes productCinzaSagrado)
      (extract_attributes productCarvalhoMadeirado) = 0 ∧
    (∀ cand ∈ attribute_prefilter productCinzaSagrado true 20 dbC2,
      cand.product ≠ productCarvalhoMadeirado) := by
  constructor
  · exact c6_attribute_score.2.1 _ _ (by decide) (by decide) (by decide)
  · exact c6_attribute_score.2.2.1 productCinzaSagrado
      productCarvalhoMadeirado true 20 dbC2 (by decide) (by decide) (by decide)

/-! ## C7 — canonical, symmetric direct equivalences -/

theorem insert_direct_equivalence_subset (pa pb : Nat) (s : Option String)
    (c : ℚ) (tbl : List EquivRow) :
    tbl ⊆ insert_direct_equivalence pa pb s c tbl := by
  unfold insert_direct_equivalence
  split
  · exact fun x hx => hx
  · exact fun x hx => List.mem_append_left _ hx

theorem insert_direct_equivalence_mem (pa pb : Nat) (s : Option String)
    (c : ℚ) (tbl : List EquivRow) :
    ∃ r ∈ insert_direct_equivalence pa pb s c tbl,
      r.product_id_a = min pa pb ∧ r.product_id_b = max pa pb := by
  unfold insert_direct_equivalence
  split
  next h =>
    rw [List.any_eq_true] at h
    obtain ⟨r, hr, hpred⟩ := h
    simp only [decide_eq_true_eq] at hpred
    exact ⟨r, hr, hpred⟩
  next h =>
    refine ⟨_, List.mem_append_right _ (List.mem_singleton_self _), rfl, rfl⟩

theorem insert_direct_equivalence_canonical (pa pb : Nat)
    (s : Option String) (c : ℚ) (tbl : List EquivRow)
    (h1 : ∀ r ∈ tbl, r.product_id_a ≤ r.product_id_b)
    (h2 : (tbl.map fun r => (r.product_id_a, r.product_id_b)).Nodup) :
    (∀ r ∈ insert_direct_equivalence pa pb s c tbl,
      r.product_id_a ≤ r.product_id_b) ∧
    ((insert_direct_equivalence pa pb s c tbl).map fun r =>
      (r.product_id_a, r.product_id_b)).Nodup := by
  unfold insert_direct_equivalence
  split
  next => exact ⟨h1, h2⟩
  next h =>
    constructor
    · intro r hr
      rcases List.mem_append.1 hr with hr | hr
      · exact h1 r hr
      · rw [List.mem_singleton] at hr
        subst hr
        exact min_le_max
    · rw [List.map_append, List.nodup_append]
      refine ⟨h2, by simp, ?_⟩
      intro x hx
      simp only [List.mem_map] at hx
      obtain ⟨r, hr, hxr⟩ := hx
      simp only [List.map_cons, List.map_nil, List.mem_cons,
        List.not_mem_nil, or_false]
      intro hcontra
      rw [List.any_eq_true] at h
      push_neg at h
      have hxr2 : r.product_id_a = min pa pb ∧
          r.product_id_b = max pa pb := by
        rw [hcontra] at hxr
        simp only [Prod.mk.injEq] at hxr
        exact hxr
      exact absurd (by simp [hxr2.1, hxr2.2]) (h r hr)

theorem applyEquivInserts_subset (ops : List EquivInsert) :
    ∀ tbl : List EquivRow, tbl ⊆ applyEquivInserts ops tbl := by
  induction ops with
  | nil => intro tbl; exact fun x hx => hx
  | cons op ops ih =>
    intro tbl x hx
    exact ih _ (insert_direct_equivalence_subset _ _ _ _ _ hx)

theorem applyEquivInserts_spec (ops : List EquivInsert) :
    ∀ tbl : List EquivRow,
      (∀ r ∈ tbl, r.product_id_a ≤ r.product_id_b) →
      ((tbl.map fun r => (r.product_id_a, r.product_id_b)).Nodup) →
      ((∀ r ∈ applyEquivInserts ops tbl,
          r.product_id_a ≤ r.product_id_b) ∧
        ((applyEquivInserts ops tbl).map fun r =>
          (r.product_id_a, r.product_id_b)).Nodup) ∧
      (∀ op ∈ ops, ∃ r ∈ applyEquivInserts ops tbl,
        r.product_id_a = min op.pa op.pb ∧
        r.product_id_b = max op.pa op.pb) := by
  induction ops with
  | nil =>
    intro tbl h1 h2
    exact ⟨⟨h1, h2⟩, by simp⟩
  | cons op ops ih =>
    intro tbl h1 h2
    have hstep : applyEquivInserts (op :: ops) tbl =
        applyEquivInserts ops
          (insert_direct_equivalence op.pa op.pb op.source op.confidence
            tbl) := rfl
    obtain ⟨hc1, hc2⟩ := insert_direct_equivalence_canonical op.pa op.pb
      op.source op.confidence tbl h1 h2
    obtain ⟨hcan, hmem⟩ := ih _ hc1 hc2
    rw [hstep]
    refine ⟨hcan, ?_⟩
    intro op2 hop2
    rcases List.mem_cons.1 hop2 with rfl | hop2
    · obtain ⟨r, hr, hkey⟩ := insert_direct_equivalence_mem op2.pa op2.pb
        op2.source op2.confidence tbl
      exact ⟨r, applyEquivInserts_subset ops _ hr, hkey⟩
    · exact hmem op2 hop2

/-- With pairwise-distinct ordered keys, a key that occurs occurs on
exactly one row. -/
theorem filter_key_length_one (tbl : List EquivRow)
    (hnodup : (tbl.map fun r => (r.product_id_a, r.product_id_b)).Nodup)
    (A B : Nat)
    (hmem : ∃ r ∈ tbl, r.product_id_a = A ∧ r.product_id_b = B) :
    (tbl.filter fun r =>
      r.product_id_a = A ∧ r.product_id_b = B).length = 1 := by
  induction tbl with
  | nil => simp at hmem
  | cons r tl ih =>
    rw [List.map_cons, List.nodup_cons] at hnodup
    obtain ⟨hnotmem, hnodup⟩ := hnodup
    by_cases hp : r.product_id_a = A ∧ r.product_id_b = B
    · have hempty : (tl.filter fun r =>
          r.product_id_a = A ∧ r.product_id_b = B) = [] := by
        rw [List.filter_eq_nil_iff]
        intro x hx hpx
        simp only [decide_eq_true_eq] at hpx
        apply hnotmem
        rw [List.mem_map]
        exact ⟨x, hx, by rw [hpx.1, hpx.2, hp.1, hp.2]⟩
      rw [List.filter_cons_of_pos (by simp [hp]), hempty]
      rfl
    · rw [List.filter_cons_of_neg (by simp [hp])]
      apply ih hnodup
      rcases hmem with ⟨x, hx, hpx⟩
      rcases List.mem_cons.1 hx with rfl | hx
      · exact absurd hpx hp
      · exact ⟨x, hx, hpx⟩

/-- A row joining A to B makes `get_equivalents A` contain B's product
whenever an active product row with id B exists. -/
theorem get_equivalents_contains (db : DB) (A B : Nat)
    (hrow : ∃ r ∈ db.direct_equivalences,
      (r.product_id_a = A ∧ r.product_id_b = B) ∨
      (r.product_id_a = B ∧ r.product_id_b = A))
    (hprod : ∃ p ∈ db.products, p.id = B ∧ p.is_active) :
    ∃ e ∈ get_equivalents A db, e.product.id = B := by
  obtain ⟨r, hr, hcase⟩ := hrow
  have hcond : r.product_id_a = A ∨ r.product_id_b = A := by tauto
  have hother : (if r.product_id_a = A then r.product_id_b
      else r.product_id_a) = B := by
    by_cases ha : r.product_id_a = A
    · rw [if_pos ha]
      rcases hcase with ⟨h1, h2⟩ | ⟨h1, h2⟩
      · exact h2
      · rw [h2, ← h1, ha]
    · rw [if_neg ha]
      rcases hcase with ⟨h1, h2⟩ | ⟨h1, h2⟩
      · exact absurd h1 ha
      · exact h1
  have hfilter : ∃ p0, (db.products.filter fun p =>
      p.id = B ∧ p.is_active).head? = some p0 := by
    obtain ⟨p, hp, hid, hact⟩ := hprod
    have : p ∈ db.products.filter fun p => p.id = B ∧ p.is_active := by
      rw [List.mem_filter]
      exact ⟨hp, by simp [hid, hact]⟩
    cases hh : (db.products.filter fun p => p.id = B ∧ p.is_active).head? with
    | none =>
      rw [List.head?_eq_none_iff] at hh
      rw [hh] at this
      simp at this
    | some p0 => exact ⟨p0, rfl⟩
  obtain ⟨p0, hp0⟩ := hfilter
  have hp0prop : p0.id = B ∧ p0.is_active := by
    have hp0mem : p0 ∈ db.products.filter fun p => p.id = B ∧ p.is_active :=
      List.mem_of_mem_head? hp0
    have := (List.mem_filter.1 hp0mem).2
    simpa using this
  unfold get_equivalents
  have hjoin : ∃ s0, s0 ∈ leftJoinStock p0 db := by
    by_cases hstock : (db.stock.filter fun s => s.product_id = p0.id) = []
    · refine ⟨none, ?_⟩
      unfold leftJoinStock
      rw [hstock]
      simp
    · obtain ⟨s1, tl, heq⟩ : ∃ s1 tl,
          (db.stock.filter fun s => s.product_id = p0.id) = s1 :: tl := by
        cases h2 : db.stock.filter fun s => s.product_id = p0.id with
        | nil => exact absurd h2 hstock
        | cons a b => exact ⟨a, b, rfl⟩
      refine ⟨some s1, ?_⟩
      unfold leftJoinStock
      rw [heq]
      simp
  obtain ⟨s0, hs0⟩ := hjoin
  refine ⟨{ product := p0, equivalence_source := r.equivalence_source,
            confidence := r.confidence, stock := s0 }, ?_, hp0prop.1⟩
  rw [List.mem_flatMap]
  refine ⟨r, hr, ?_⟩
  rw [if_pos hcond]
  dsimp only
  rw [hother, hp0]
  dsimp only
  simp only [List.mem_map]
  exact ⟨s0, hs0, rfl⟩

/-- C7: after any sequence of insertions through the canonicalised
insertion path (shared by the import and preload code), every row is
stored lower id first, exactly one row exists per inserted unordered
pair regardless of insertion order or direction, and `get_equivalents`
is symmetric: each inserted pair is visible from both sides whenever
both products are active. -/
theorem c7_equivalence_symmetry (ops : List EquivInsert) :
    (∀ r ∈ applyEquivInserts ops [], r.product_id_a ≤ r.product_id_b) ∧
    (((applyEquivInserts ops []).map fun r =>
      (r.product_id_a, r.product_id_b)).Nodup) ∧
    (∀ op ∈ ops,
      ((applyEquivInserts ops []).filter fun r =>
        r.product_id_a = min op.pa op.pb ∧
        r.product_id_b = max op.pa op.pb).length = 1 ∧
      (∀ db : DB, db.direct_equivalences = applyEquivInserts ops [] →
        (∃ p ∈ db.products, p.id = op.pa ∧ p.is_active) →
        (∃ p ∈ db.products, p.id = op.pb ∧ p.is_active) →
        (∃ e ∈ get_equivalents op.pa db, e.product.id = op.pb) ∧
        (∃ e ∈ get_equivalents op.pb db, e.product.id = op.pa))) := by
  obtain ⟨⟨hord, hnodup⟩, hmem⟩ := applyEquivInserts_spec ops []
    (by simp) (by simp)
  refine ⟨hord, hnodup, ?_⟩
  intro op hop
  obtain ⟨r, hr, hkey⟩ := hmem op hop
  constructor
  · exact filter_key_length_one _ hnodup _ _ ⟨r, hr, hkey⟩
  · intro db hdb hpa hpb
    have hrdb : r ∈ db.direct_equivalences := by rw [hdb]; exact hr
    have hcover : (r.product_id_a = op.pa ∧ r.product_id_b = op.pb) ∨
        (r.product_id_a = op.pb ∧ r.product_id_b = op.pa) := by
      rcases le_total op.pa op.pb with hle | hle
      · left
        rw [hkey.1, hkey.2, min_eq_left hle, max_eq_right hle]
        exact ⟨rfl, rfl⟩
      · right
        rw [hkey.1, hkey.2, min_eq_right hle, max_eq_left hle]
        exact ⟨rfl, rfl⟩
    constructor
    · exact get_equivalents_contains db op.pa op.pb ⟨r, hrdb, hcover⟩ hpb
    · refine get_equivalents_contains db op.pb op.pa ⟨r, hrdb, ?_⟩ hpa
      tauto

/-- C7 witness: inserting (2,1) and then the reverse (1,2) leaves a
single canonical row, and the lookup from product 2 sees product 1. -/
theorem c7_equivalence_symmetry_witness :
    ((applyEquivInserts opsC7 []).filter fun r =>
      r.product_id_a = 1 ∧ r.product_id_b = 2).length = 1 ∧
    (∃ e ∈ get_equivalents 2 dbC7, e.product.id = 1) := by
  obtain ⟨hord, hnodup, hper⟩ := c7_equivalence_symmetry opsC7
  have hmem : opC7a ∈ opsC7 := by
    rw [opsC7]
    exact List.mem_cons_self _ _
  have h1 := hper _ hmem
  constructor
  · have h2 := h1.1
    simpa [opC7a] using h2
  · exact (h1.2 dbC7 rfl (by decide) (by decide)).1

/-! ## C1 — exact-code search -/

/-- C1: when the (stripped, upper-cased) query is a recorded product
code, `search` returns exactly that one product, with score 1.0, type
"exact_code", enriched with the stock entry at the primary location
(zero quantities and out-of-stock when no such entry exists). -/
theorem c1_exact_code_search (fz : Fuzz) (db : DB) (q : String)
    (P : Product) (hne : pyStrip q ≠ "")
    (hcode : get_product_by_code (pyUpper (pyStrip q)) db = some P) :
    search fz db q = [enrich_with_stock db P 1 "exact_code"] ∧
    ∃ r, search fz db q = [r] ∧ r.product = P ∧ r.match_score = 1 ∧
      r.match_type = "exact_code" ∧
      (match get_stock_at_location P.id PRIMARY_LOCATION db with
       | some s => r.quantity_available = s.quantity_available ∧
           r.quantity_reserved = s.quantity_reserved ∧
           r.location = s.location ∧
           r.in_stock =
             decide (0 < s.quantity_available - s.quantity_reserved)
       | none => r.quantity_available = 0 ∧ r.quantity_reserved = 0 ∧
           r.location = PRIMARY_LOCATION ∧ r.in_stock = false) := by
  have hs : search fz db q = [enrich_with_stock db P 1 "exact_code"] := by
    unfold search
    rw [if_neg hne]
    dsimp only
    rw [hcode]
  refine ⟨hs, enrich_with_stock db P 1 "exact_code", hs, ?_⟩
  unfold enrich_with_stock
  cases hst : get_stock_at_location P.id PRIMARY_LOCATION db with
  | some s => exact ⟨rfl, rfl, rfl, rfl, rfl, rfl, rfl⟩
  | none => exact ⟨rfl, rfl, rfl, rfl, rfl, rfl, rfl⟩

/-- C1 witness: searching the concrete store for "DTX_CARVALHO"
returns the single exact-code result, enriched with the primary-stock
entry (net 8, in stock). -/
theorem c1_exact_code_search_witness :
    search fzZero dbC2 "DTX_CARVALHO" =
      [enrich_with_stock dbC2 productDtxCarvalho 1 "exact_code"] ∧
    (enrich_with_stock dbC2 productDtxCarvalho 1 "exact_code").match_score
      = 1 ∧
    (enrich_with_stock dbC2 productDtxCarvalho 1 "exact_code").match_type
      = "exact_code" ∧
    (enrich_with_stock dbC2 productDtxCarvalho 1 "exact_code").in_stock
      = true := by
  have h := c1_exact_code_search fzZero dbC2 "DTX_CARVALHO"
    productDtxCarvalho (by decide) (by decide)
  refine ⟨h.1, rfl, rfl, ?_⟩
  norm_num [enrich_with_stock, get_stock_at_location, dbC2,
    productDtxCarvalho, PRIMARY_LOCATION]

/-! ## C9 — thickness tolerance and partition -/

/-- C9: when the query carries an explicit thickness t, `search` runs
the LIKE/fuzzy pipeline (with the enlarged SQL limit) and then the
thickness partition; the partition flags every result with whether its
thickness is known and within 0.1 mm of t, returns only the matching
results when any exist and the full flagged list otherwise (both
capped); a result exactly 0.1 mm away is accepted and one 0.1001 mm
away is rejected. -/
theorem c9_thickness_filter (fz : Fuzz) (db : DB) (q : String) (t : ℚ)
    (hne : pyStrip q ≠ "")
    (ht : extract_thickness_mm (pyStrip q) = some t)
    (hcode : get_product_by_code (pyUpper (pyStrip q)) db = none) :
    search fz db q = applyThicknessFilter t
      (searchBase fz db 100 (normalize_query_for_search (pyStrip q))) ∧
    (∀ results : List SearchResult,
      ((results.map (setThicknessFlag t)).filter fun r =>
          r.thickness_match = some true).isEmpty = false →
      applyThicknessFilter t results =
        ((results.map (setThicknessFlag t)).filter fun r =>
          r.thickness_match = some true).take MAX_SEARCH_RESULTS) ∧
    (∀ results : List SearchResult,
      ((results.map (setThicknessFlag t)).filter fun r =>
          r.thickness_match = some true).isEmpty = true →
      applyThicknessFilter t results =
        (results.map (setThicknessFlag t)).take MAX_SEARCH_RESULTS) ∧
    (∀ (r : SearchResult) (th : ℚ), r.product.thickness_mm = some th →
      (setThicknessFlag t r).thickness_match =
        some (decide (|th - t| ≤ 1/10)) ∧
      (setThicknessFlag t r).requested_thickness_mm = some t) ∧
    (∀ r : SearchResult, r.product.thickness_mm = none →
      (setThicknessFlag t r).thickness_match = some false) := by
  refine ⟨?_, ?_, ?_, ?_, ?_⟩
  · unfold search
    rw [if_neg hne]
    dsimp only
    rw [hcode, ht]
    dsimp only
    simp
  · intro results hfalse
    unfold applyThicknessFilter
    dsimp only
    rw [hfalse]
    simp
  · intro results htrue
    unfold applyThicknessFilter
    dsimp only
    rw [htrue]
    simp
  · intro r th hth
    constructor
    · unfold setThicknessFlag
      rw [hth]
    · rfl
  · intro r hth
    unfold setThicknessFlag
    rw [hth]

/-- C9 witness: the concrete query "carvalho 15mm" goes through the
thickness partition for t = 15, a 15.1 mm result is flagged matching
and a 15.1001 mm result is flagged non-matching. -/
theorem c9_thickness_filter_witness :
    search fzZero dbC9 "carvalho 15mm" =
      applyThicknessFilter (decimalVal ['1', '5'] [])
        (searchBase fzZero dbC9 100
          (normalize_query_for_search (pyStrip "carvalho 15mm"))) ∧
    (setThicknessFlag 15 resultMalva).thickness_match = some true ∧
    (setThicknessFlag 15 resultOslo).thickness_match = some false := by
  have h := c9_thickness_filter fzZero dbC9 "carvalho 15mm"
    (decimalVal ['1', '5'] []) (by decide) rfl (by decide)
  have ht : decimalVal ['1', '5'] [] = 15 := by
    have h1 : '1'.toNat - 48 = 1 := rfl
    have h5 : '5'.toNat - 48 = 5 := rfl
    norm_num [decimalVal, digitsVal, h1, h5]
  refine ⟨h.1, ?_, ?_⟩
  · have hm := (h.2.2.2.1 resultMalva (151/10) (by rfl)).1
    rw [ht] at hm
    have harith : |(151:ℚ)/10 - 15| ≤ 1/10 := by
      have he : (151:ℚ)/10 - 15 = 1/10 := by norm_num
      rw [he, abs_of_nonneg (by norm_num)]
    rw [hm, decide_eq_true harith]
  · have hm := (h.2.2.2.1 resultOslo (151001/10000) (by rfl)).1
    rw [ht] at hm
    have harith : ¬(|(151001:ℚ)/10000 - 15| ≤ 1/10) := by
      have he : (151001:ℚ)/10000 - 15 = 1001/10000 := by norm_num
      rw [he, abs_of_nonneg (by norm_num)]
      norm_num
    rw [hm, decide_eq_false harith]

/-! ## C8 — cache-served second call of the similarity ranker

Helper lemmas about the stable descending sort and the cache plumbing,
then the counterexample to the claim as stated and the amended,
conditional idempotence theorem. -/

theorem insertDescBy_pairwise {α : Type} (key : α → ℚ) (x : α)
    (l : List α) (h : l.Pairwise fun a b => key b ≤ key a) :
    (insertDescBy key x l).Pairwise fun a b => key b ≤ key a := by
  induction l with
  | nil => simp [insertDescBy]
  | cons y ys ih =>
    rw [List.pairwise_cons] at h
    obtain ⟨hy, hys⟩ := h
    by_cases hc : key y ≤ key x
    · rw [insertDescBy, if_pos hc]
      rw [List.pairwise_cons]
      constructor
      · intro z hz
        rcases List.mem_cons.1 hz with rfl | hz
        · exact hc
        · exact le_trans (hy z hz) hc
      · rw [List.pairwise_cons]
        exact ⟨hy, hys⟩
    · rw [insertDescBy, if_neg hc]
      rw [List.pairwise_cons]
      constructor
      · intro z hz
        rcases (mem_insertDescBy key x z ys).1 hz with rfl | hz
        · exact le_of_lt (lt_of_not_le hc)
        · exact hy z hz
      · exact ih hys

theorem sortDescBy_pairwise {α : Type} (key : α → ℚ) (l : List α) :
    (sortDescBy key l).Pairwise fun a b => key b ≤ key a := by
  induction l with
  | nil => simp [sortDescBy]
  | cons x xs ih => exact insertDescBy_pairwise key x _ ih

theorem sortDescBy_eq_self {α : Type} (key : α → ℚ) (l : List α)
    (h : l.Pairwise fun a b => key b ≤ key a) : sortDescBy key l = l := by
  induction l with
  | nil => rfl
  | cons x xs ih =>
    rw [List.pairwise_cons] at h
    obtain ⟨hx, hxs⟩ := h
    rw [sortDescBy, ih hxs]
    cases xs with
    | nil => rfl
    | cons y ys =>
      rw [insertDescBy, if_pos (hx y (List.mem_cons_self _ _))]

theorem sortDescBy_idem {α : Type} (key : α → ℚ) (l : List α) :
    sortDescBy key (sortDescBy key l) = sortDescBy key l :=
  sortDescBy_eq_self key _ (sortDescBy_pairwise key l)

theorem insertDescBy_map {α β : Type} (key : β → ℚ) (key2 : α → ℚ)
    (f : α → β) (hk : ∀ x, key (f x) = key2 x) (x : α) (l : List α) :
    insertDescBy key (f x) (l.map f) = (insertDescBy key2 x l).map f := by
  induction l with
  | nil => rfl
  | cons y ys ih =>
    rw [List.map_cons, insertDescBy, insertDescBy, hk y, hk x]
    by_cases hc : key2 y ≤ key2 x
    · rw [if_pos hc, if_pos hc]
      rfl
    · rw [if_neg hc, if_neg hc, List.map_cons, ih]

theorem sortDescBy_map {α β : Type} (key : β → ℚ) (key2 : α → ℚ)
    (f : α → β) (hk : ∀ x, key (f x) = key2 x) (l : List α) :
    sortDescBy key (l.map f) = (sortDescBy key2 l).map f := by
  induction l with
  | nil => rfl
  | cons x xs ih =>
    rw [List.map_cons, sortDescBy, sortDescBy, ih,
      insertDescBy_map key key2 f hk]

theorem filterMap_eq_map_of_all {α β : Type} (f : α → Option β) (g : α → β)
    (l : List α) (h : ∀ x ∈ l, f x = some (g x)) :
    l.filterMap f = l.map g := by
  induction l with
  | nil => rfl
  | cons x xs ih =>
    rw [List.filterMap_cons, h x (List.mem_cons_self _ _), List.map_cons,
      ih fun y hy => h y (List.mem_cons_of_mem _ hy)]

theorem flatMap_eq_nil_of_all {α β : Type} (f : α → List β) (l : List α)
    (h : ∀ x ∈ l, f x = []) : l.flatMap f = [] := by
  induction l with
  | nil => rfl
  | cons x xs ih =>
    rw [List.flatMap_cons, h x (List.mem_cons_self _ _), List.nil_append,
      ih fun y hy => h y (List.mem_cons_of_mem _ hy)]

/-- `find_smart_alternatives` on a store with no usable cached rows
for the product: the compute path. -/
theorem find_smart_compute_path (env : SmartEnv) (pid mr : Nat) (db : DB)
    (orig : Product)
    (hcache : get_cached_similarities_for_product pid (3/10) db = [])
    (horig : get_product_by_id pid db = some orig)
    (hcands : (attribute_prefilter orig true 20 db).isEmpty = false) :
    find_smart_alternatives env pid mr true db =
      { outcome := SmartOutcome.results
          ((sortDescBy (fun r => r.similarity_score)
            (if (claude_rank_alternatives env orig
                (attribute_prefilter orig true 20 db)).1.isEmpty then
              (attribute_prefilter orig true 20 db).map fallbackRanked
            else (claude_rank_alternatives env orig
              (attribute_prefilter orig true 20 db)).1)).take mr),
        db := (if (claude_rank_alternatives env orig
              (attribute_prefilter orig true 20 db)).1.isEmpty then
            (attribute_prefilter orig true 20 db).map fallbackRanked
          else (claude_rank_alternatives env orig
            (attribute_prefilter orig true 20 db)).1).foldl
          (fun d r => save_similarity_cache pid r.product.id
            r.similarity_score r.justification d) db,
        knowledge_calls := (claude_rank_alternatives env orig
          (attribute_prefilter orig true 20 db)).2 } := by
  unfold find_smart_alternatives
  rw [hcache, horig]
  simp only [List.isEmpty_nil, Bool.not_true, Bool.false_and,
    Bool.false_eq_true, if_false, filter_and_format_cached]
  simp [hcands]

/-- `find_smart_alternatives` when cached rows survive the filters:
the cache-hit path (no store write, no knowledge call). -/
theorem find_smart_cache_hit (env : SmartEnv) (pid mr : Nat) (db : DB)
    (hne : (get_cached_similarities_for_product pid (3/10) db).isEmpty
      = false)
    (hres : (filter_and_format_cached
        (get_cached_similarities_for_product pid (3/10) db) true).isEmpty
      = false) :
    find_smart_alternatives env pid mr true db =
      { outcome := SmartOutcome.results
          ((filter_and_format_cached
            (get_cached_similarities_for_product pid (3/10) db)
            true).take mr),
        db := db, knowledge_calls := 0 } := by
  unfold find_smart_alternatives
  dsimp only
  rw [hne, hres]
  simp

theorem flatMap_eq_map_of_all {α β : Type} (f : α → List β) (g : α → β)
    (l : List α) (h : ∀ x ∈ l, f x = [g x]) : l.flatMap f = l.map g := by
  induction l with
  | nil => rfl
  | cons x xs ih =>
    rw [List.flatMap_cons, h x (List.mem_cons_self _ _), List.map_cons,
      ih fun y hy => h y (List.mem_cons_of_mem _ hy)]
    rfl

theorem map_eq_self_of_all {α : Type} (f : α → α) (l : List α)
    (h : ∀ x ∈ l, f x = x) : l.map f = l := by
  induction l with
  | nil => rfl
  | cons x xs ih =>
    rw [List.map_cons, h x (List.mem_cons_self _ _),
      ih fun y hy => h y (List.mem_cons_of_mem _ hy)]

theorem length_insertDescBy {α : Type} (key : α → ℚ) (x : α)
    (l : List α) : (insertDescBy key x l).length = l.length + 1 := by
  induction l with
  | nil => rfl
  | cons y ys ih =>
    rw [insertDescBy]
    by_cases hc : key y ≤ key x
    · rw [if_pos hc]
      rfl
    · rw [if_neg hc, List.length_cons, ih, List.length_cons]

theorem length_sortDescBy {α : Type} (key : α → ℚ) (l : List α) :
    (sortDescBy key l).length = l.length := by
  induction l with
  | nil => rfl
  | cons x xs ih =>
    rw [sortDescBy, length_insertDescBy, ih, List.length_cons]

/-- The save loop of `find_smart_alternatives` only writes the
similarity cache. -/
theorem foldl_save_products_stock (pid : Nat) (L : List RankedAlt) :
    ∀ db : DB,
      (L.foldl (fun d r => save_similarity_cache pid r.product.id
        r.similarity_score r.justification d) db).products = db.products ∧
      (L.foldl (fun d r => save_similarity_cache pid r.product.id
        r.similarity_score r.justification d) db).stock = db.stock := by
  induction L with
  | nil => intro db; exact ⟨rfl, rfl⟩
  | cons r0 L ih =>
    intro db
    rw [List.foldl_cons]
    exact ih _

/-- The save loop appends one cache row per ranked result (in order)
when the saved ids are distinct and no prior row pairs the product
with a saved id. -/
theorem foldl_save_cache (pid : Nat) :
    ∀ (L : List RankedAlt) (db : DB),
      ((L.map fun r => r.product.id).Nodup) →
      (∀ row ∈ db.similarity_cache, row.product_id_a = pid →
        ¬row.product_id_b ∈ L.map fun r => r.product.id) →
      (L.foldl (fun d r => save_similarity_cache pid r.product.id
        r.similarity_score r.justification d) db).similarity_cache =
      db.similarity_cache ++ L.map fun r =>
        { product_id_a := pid, product_id_b := r.product.id,
          similarity_score := r.similarity_score,
          justification := r.justification } := by
  intro L
  induction L with
  | nil => intro db _ _; simp
  | cons r0 L ih =>
    intro db hnodup hdb
    rw [List.map_cons, List.nodup_cons] at hnodup
    obtain ⟨hr0, hnodup⟩ := hnodup
    rw [List.foldl_cons]
    have hsave : (save_similarity_cache pid r0.product.id
        r0.similarity_score r0.justification db).similarity_cache =
        db.similarity_cache ++
          [{ product_id_a := pid, product_id_b := r0.product.id,
             similarity_score := r0.similarity_score,
             justification := r0.justification }] := by
      unfold save_similarity_cache
      dsimp only
      congr 1
      rw [List.filter_eq_self]
      intro row hrow
      have h2 := hdb row hrow
      simp only [List.map_cons, List.mem_cons] at h2
      simp only [decide_not, Bool.not_eq_eq_eq_not, Bool.not_true,
        decide_eq_false_iff_not]
      intro hcontra
      exact (h2 hcontra.1) (Or.inl hcontra.2)
    have hnext := ih (save_similarity_cache pid r0.product.id
        r0.similarity_score r0.justification db) hnodup ?_
    · rw [hnext, hsave, List.append_assoc]
      rfl
    · intro row hrow ha
      rw [hsave] at hrow
      rcases List.mem_append.1 hrow with hrow | hrow
      · intro hb
        exact (hdb row hrow ha) (List.mem_cons_of_mem _ hb)
      · rw [List.mem_singleton] at hrow
        subst hrow
        exact hr0

/-- With pairwise-distinct product ids, the first active product with
a given id is the member itself. -/
theorem head_filter_products (l : List Product)
    (h : (l.map fun p => p.id).Nodup) (p : Product) (hp : p ∈ l)
    (hact : p.is_active) (i : Nat) (hid : p.id = i) :
    (l.filter fun q => q.id = i ∧ q.is_active).head? = some p := by
  induction l with
  | nil => simp at hp
  | cons q tl ih =>
    rw [List.map_cons, List.nodup_cons] at h
    obtain ⟨hq, htl⟩ := h
    rcases List.mem_cons.1 hp with rfl | hp
    · rw [List.filter_cons_of_pos (by simp [hid, hact])]
      rfl
    · have hqid : ¬(q.id = i ∧ q.is_active) := by
        intro hcontra
        apply hq
        rw [hcontra.1, ← hid]
        exact List.mem_map.2 ⟨p, hp, rfl⟩
      rw [List.filter_cons_of_neg (by simpa using hqid)]
      exact ih htl hp

/-- With at most one stock row per product, the filter for the
product's stock is exactly its row. -/
theorem filter_stock_unique (l : List StockRow)
    (h : (l.map fun s => s.product_id).Nodup) (s : StockRow) (hs : s ∈ l)
    (i : Nat) (hid : s.product_id = i) :
    l.filter (fun x => x.product_id = i) = [s] := by
  induction l with
  | nil => simp at hs
  | cons q tl ih =>
    rw [List.map_cons, List.nodup_cons] at h
    obtain ⟨hq, htl⟩ := h
    rcases List.mem_cons.1 hs with rfl | hs
    · rw [List.filter_cons_of_pos (by simp [hid])]
      have hempty : tl.filter (fun x => x.product_id = i) = [] := by
        rw [List.filter_eq_nil_iff]
        intro x hx hpx
        simp only [decide_eq_true_eq] at hpx
        apply hq
        rw [hid, ← hpx]
        exact List.mem_map.2 ⟨x, hx, rfl⟩
      rw [hempty]
    · have hqid : ¬(q.product_id = i) := by
        intro hcontra
        apply hq
        rw [hcontra, ← hid]
        exact List.mem_map.2 ⟨s, hs, rfl⟩
      rw [List.filter_cons_of_neg (by simpa using hqid)]
      exact ih htl hs

/-- `filterMap` over a `map` collapses to one `map` when every image
is kept. -/
theorem filterMap_map_of_all {α β γ : Type} (f : β → Option γ) (u : α → β)
    (v : α → γ) (l : List α) (h : ∀ x ∈ l, f (u x) = some (v x)) :
    (l.map u).filterMap f = l.map v := by
  induction l with
  | nil => rfl
  | cons x xs ih =>
    rw [List.map_cons, List.filterMap_cons, h x (List.mem_cons_self _ _),
      List.map_cons, ih fun y hy => h y (List.mem_cons_of_mem _ hy)]

/-! ## C8 — cache idempotence of the similarity ranker -/

/-- Python `round(1.0, 2) = 1.0`. -/
theorem pyRound_eval_100 : pyRound 2 (1 : ℚ) = 1 := by
  norm_num [pyRound]

/-- Python `round(0.5, 3) = 0.5`. -/
theorem pyRound_eval_half : pyRound 3 ((1:ℚ)/2) = 1/2 := by
  norm_num [pyRound]

/-- Python `round(0.2, 2) = 0.2`. -/
theorem pyRound_eval_fifth : pyRound 2 ((1:ℚ)/5) = 1/5 := by
  norm_num [pyRound]

/-- Attributes extracted for the C8 original. -/
theorem c8_attrs_orig : extract_attributes productC8orig =
    { category := some "madeirado", finish := "matt", thickness := some 15,
      wood_family := none, color_family := none, brand := "Duratex" } := by
  decide

/-- Attributes extracted for the C8 candidate. -/
theorem c8_attrs_cand : extract_attributes productC8cand =
    { category := some "madeirado", finish := "matt", thickness := some 15,
      wood_family := none, color_family := none, brand := "Eucatex" } := by
  decide

/-- Same category, same finish, same thickness, no wood or color
family: attribute score 0.3 + 0.1 + 0.1 = 0.5. -/
theorem c8_score_eval : compute_attribute_score
    (extract_attributes productC8orig) (extract_attributes productC8cand)
    = 1/2 := by
  rw [c8_attrs_orig, c8_attrs_cand]
  simp [compute_attribute_score, truthyStr, truthyNum]
  norm_num [min_def]

/-- On any store with the C8 products and stock, the pre-filter keeps
exactly the in-stock candidate. -/
theorem c8_prefilter_eval (d : DB)
    (hp : d.products = [productC8orig, productC8cand])
    (hs : d.stock = [stockC8]) :
    attribute_prefilter productC8orig true 20 d = [candC8] := by
  have hjoin : get_products_in_stock DEFAULT_MIN_STOCK d =
      [(productC8cand, stockC8)] := by
    unfold get_products_in_stock
    rw [hp, hs]
    have h1 : (([productC8orig, productC8cand] : List Product).flatMap
        fun p => (([stockC8] : List StockRow).filter
          fun s => s.product_id = p.id).map fun s => (p, s)) =
        [(productC8cand, stockC8)] := rfl
    rw [h1]
    rw [List.filter_cons_of_pos (by
      simp only [decide_eq_true_eq]
      refine ⟨rfl, ?_⟩
      norm_num [stockC8, DEFAULT_MIN_STOCK])]
    rfl
  have hfa : (if (productC8cand, stockC8).1.id = productC8orig.id then none
      else
        if 3 / 20 < compute_attribute_score (extract_attributes productC8orig)
            (extract_attributes (productC8cand, stockC8).1) then
          some { product := (productC8cand, stockC8).1,
                 attribute_score := pyRound 3 (compute_attribute_score
                   (extract_attributes productC8orig)
                   (extract_attributes (productC8cand, stockC8).1)),
                 net_available :=
                   (productC8cand, stockC8).2.quantity_available -
                     (productC8cand, stockC8).2.quantity_reserved }
        else none) = some candC8 := by
    rw [if_neg (by decide :
      ¬((productC8cand, stockC8).1.id = productC8orig.id))]
    have hp1 : (productC8cand, stockC8).1 = productC8cand := rfl
    have hp2 : (productC8cand, stockC8).2 = stockC8 := rfl
    simp only [hp1, hp2]
    rw [c8_score_eval]
    rw [if_pos (by norm_num : (3:ℚ)/20 < 1/2)]
    rw [pyRound_eval_half]
    norm_num [candC8, stockC8]
  unfold attribute_prefilter
  dsimp only
  rw [if_pos (rfl : true = true)]
  rw [hjoin]
  simp only [List.filterMap_cons, List.filterMap_nil]
  rw [hfa]
  rfl

/-- The high-scoring engine ranks the candidate at 1.0 with one
knowledge call. -/
theorem c8_rank_high : claude_rank_alternatives envC8 productC8orig
    [candC8] = ([rankedC8], 1) := by
  have hfa : (if h : 0 ≤ rkEntryC8.index - 1 ∧
        (rkEntryC8.index - 1).toNat < ([candC8] : List Candidate).length then
      some { product := (([candC8] : List Candidate).get
               ⟨(rkEntryC8.index - 1).toNat, h.2⟩).product,
             similarity_score := pyRound 2 (if 1 < rkEntryC8.score then
               rkEntryC8.score / 100 else rkEntryC8.score),
             justification := rkEntryC8.justification,
             net_available := (([candC8] : List Candidate).get
               ⟨(rkEntryC8.index - 1).toNat, h.2⟩).net_available }
    else none) = some rankedC8 := by
    rw [if_neg (by norm_num [rkEntryC8] : ¬((1:ℚ) < rkEntryC8.score))]
    rw [dif_pos (by decide :
      (0:ℤ) ≤ rkEntryC8.index - 1 ∧
        (rkEntryC8.index - 1).toNat < ([candC8] : List Candidate).length)]
    norm_num [rkEntryC8, candC8, rankedC8, pyRound, List.get_cons_zero]
  unfold claude_rank_alternatives
  rw [if_neg (by decide)]
  dsimp only [envC8]
  unfold merge_rank_entries
  simp only [List.filterMap_cons, List.filterMap_nil]
  rw [hfa]

/-- The low-scoring engine ranks the candidate at 0.2 with one
knowledge call. -/
theorem c8_rank_low : claude_rank_alternatives envC8low productC8orig
    [candC8] = ([rankedC8low], 1) := by
  have hfa : (if h : 0 ≤ rkEntryC8low.index - 1 ∧
        (rkEntryC8low.index - 1).toNat < ([candC8] : List Candidate).length then
      some { product := (([candC8] : List Candidate).get
               ⟨(rkEntryC8low.index - 1).toNat, h.2⟩).product,
             similarity_score := pyRound 2 (if 1 < rkEntryC8low.score then
               rkEntryC8low.score / 100 else rkEntryC8low.score),
             justification := rkEntryC8low.justification,
             net_available := (([candC8] : List Candidate).get
               ⟨(rkEntryC8low.index - 1).toNat, h.2⟩).net_available }
    else none) = some rankedC8low := by
    rw [if_neg (by norm_num [rkEntryC8low] : ¬((1:ℚ) < rkEntryC8low.score))]
    rw [dif_pos (by decide :
      (0:ℤ) ≤ rkEntryC8low.index - 1 ∧
        (rkEntryC8low.index - 1).toNat < ([candC8] : List Candidate).length)]
    norm_num [rkEntryC8low, candC8, rankedC8low, pyRound, List.get_cons_zero]
  unfold claude_rank_alternatives
  rw [if_neg (by decide)]
  dsimp only [envC8low]
  unfold merge_rank_entries
  simp only [List.filterMap_cons, List.filterMap_nil]
  rw [hfa]

/-- C8 (amended): cache idempotence of `find_smart_alternatives`.  For
a store with distinct product ids, at most one stock row per product
and no cache rows touching the product, when the knowledge ranking
returns results whose saved ids are distinct, whose products are
active catalog products each backed by its unique stock row meeting
the minimum, and whose scores all sit at or above the 0.3 cache floor,
the first call computes, saves and makes one knowledge call, and a
second call on the returned store (no intervening data change) returns
the same outcome and the same store with zero knowledge calls. -/
theorem c8_cache_idempotent (env : SmartEnv) (pid mr : Nat) (db : DB)
    (orig : Product) (L : List RankedAlt) (stockOf : RankedAlt → StockRow)
    (hids : (db.products.map fun p => p.id).Nodup)
    (hstockU : (db.stock.map fun s => s.product_id).Nodup)
    (hcache0 : ∀ row ∈ db.similarity_cache,
      row.product_id_a ≠ pid ∧ row.product_id_b ≠ pid)
    (horig : get_product_by_id pid db = some orig)
    (hcands : (attribute_prefilter orig true 20 db).isEmpty = false)
    (hL : claude_rank_alternatives env orig
      (attribute_prefilter orig true 20 db) = (L, 1))
    (hLne : L.isEmpty = false)
    (hLid : (L.map fun r => r.product.id).Nodup)
    (hprodmem : ∀ r ∈ L, r.product ∈ db.products ∧ r.product.is_active)
    (hstockOf : ∀ r ∈ L, stockOf r ∈ db.stock ∧
      (stockOf r).product_id = r.product.id ∧
      r.net_available = (stockOf r).quantity_available -
        (stockOf r).quantity_reserved)
    (hmin : ∀ r ∈ L, DEFAULT_MIN_STOCK ≤ r.net_available)
    (hscore : ∀ r ∈ L, 3/10 ≤ r.similarity_score) :
    find_smart_alternatives env pid mr true db =
      { outcome := SmartOutcome.results
          ((sortDescBy (fun r => r.similarity_score) L).take mr),
        db := L.foldl (fun d r => save_similarity_cache pid r.product.id
          r.similarity_score r.justification d) db,
        knowledge_calls := 1 } ∧
    find_smart_alternatives env pid mr true
        (find_smart_alternatives env pid mr true db).db =
      { outcome := (find_smart_alternatives env pid mr true db).outcome,
        db := (find_smart_alternatives env pid mr true db).db,
        knowledge_calls := 0 } := by
  have hcacheEmpty : get_cached_similarities_for_product pid (3/10) db
      = [] := by
    unfold get_cached_similarities_for_product
    have hnil : db.similarity_cache.flatMap (cachedRowsFor pid db) = [] := by
      apply flatMap_eq_nil_of_all
      intro sc hsc
      obtain ⟨ha, hb⟩ := hcache0 sc hsc
      unfold cachedRowsFor
      rw [if_neg (fun hcontra => hcontra.elim ha hb)]
    rw [hnil]
    rfl
  have h1 := find_smart_compute_path env pid mr db orig hcacheEmpty horig
    hcands
  rw [hL] at h1
  dsimp only at h1
  rw [hLne] at h1
  simp only [Bool.false_eq_true, if_false] at h1
  set db2 := L.foldl (fun d r => save_similarity_cache pid r.product.id
    r.similarity_score r.justification d) db with hdb2
  have hprod2 : db2.products = db.products :=
    (foldl_save_products_stock pid L db).1
  have hstk2 : db2.stock = db.stock :=
    (foldl_save_products_stock pid L db).2
  have hsc2 : db2.similarity_cache =
      db.similarity_cache ++ L.map (savedRow pid) := by
    have h := foldl_save_cache pid L db hLid
      (fun row hrow ha _ => (hcache0 row hrow).1 ha)
    rw [hdb2, h]
    rfl
  have hrow : ∀ r ∈ L, cachedRowsFor pid db2 (savedRow pid r) =
      [savedCachedRow pid stockOf r] := by
    intro r hr
    obtain ⟨hmem, hact⟩ := hprodmem r hr
    obtain ⟨hsmem, hsid, hnet⟩ := hstockOf r hr
    have hnodup2 : (db2.products.map fun p => p.id).Nodup := by
      rw [hprod2]; exact hids
    have hmem2 : r.product ∈ db2.products := by
      rw [hprod2]; exact hmem
    have hjoin : leftJoinStock r.product db2 = [some (stockOf r)] := by
      unfold leftJoinStock
      rw [hstk2]
      rw [filter_stock_unique db.stock hstockU (stockOf r) hsmem
        r.product.id hsid]
      rfl
    unfold cachedRowsFor
    rw [if_pos (show (savedRow pid r).product_id_a = pid ∨
        (savedRow pid r).product_id_b = pid from Or.inl rfl)]
    have hother : (if (savedRow pid r).product_id_a = pid
        then (savedRow pid r).product_id_b
        else (savedRow pid r).product_id_a) = r.product.id := by
      rw [if_pos (show (savedRow pid r).product_id_a = pid from rfl)]
      rfl
    rw [hother]
    rw [head_filter_products db2.products hnodup2 r.product hmem2 hact
      r.product.id rfl]
    dsimp only
    rw [hjoin]
    rfl
  have hflat : db2.similarity_cache.flatMap (cachedRowsFor pid db2) =
      L.map (savedCachedRow pid stockOf) := by
    rw [hsc2, List.flatMap_append]
    have hold : db.similarity_cache.flatMap (cachedRowsFor pid db2)
        = [] := by
      apply flatMap_eq_nil_of_all
      intro sc hsc
      obtain ⟨ha, hb⟩ := hcache0 sc hsc
      unfold cachedRowsFor
      rw [if_neg (fun hcontra => hcontra.elim ha hb)]
    rw [hold, List.nil_append, List.flatMap_map]
    exact flatMap_eq_map_of_all _ _ L hrow
  have hfil : (L.map (savedCachedRow pid stockOf)).filter
      (fun r => decide ((3:ℚ)/10 ≤ r.sc.similarity_score)) =
      L.map (savedCachedRow pid stockOf) := by
    rw [List.filter_eq_self]
    intro x hx
    obtain ⟨r, hr, rfl⟩ := List.mem_map.1 hx
    simpa [savedCachedRow, savedRow] using hscore r hr
  have hcached2 : get_cached_similarities_for_product pid (3/10) db2 =
      (sortDescBy (fun r => r.similarity_score) L).map
        (savedCachedRow pid stockOf) := by
    unfold get_cached_similarities_for_product
    rw [hflat, hfil]
    exact sortDescBy_map _ _ (savedCachedRow pid stockOf) (fun r => rfl) L
  have hfmt : ∀ r ∈ L,
      formatCachedRow true (savedCachedRow pid stockOf r) = some r := by
    intro r hr
    obtain ⟨hsmem, hsid, hnet⟩ := hstockOf r hr
    have hm := hmin r hr
    unfold formatCachedRow
    dsimp only [savedCachedRow, savedRow]
    simp only [Option.map_some', Option.getD_some]
    rw [if_neg ?hneg]
    case hneg =>
      intro hcontra
      rw [← hnet] at hcontra
      exact absurd hcontra.2 (not_lt.2 hm)
    rw [← hnet]
  have hres2 : filter_and_format_cached
      (get_cached_similarities_for_product pid (3/10) db2) true =
      sortDescBy (fun r => r.similarity_score) L := by
    rw [hcached2]
    unfold filter_and_format_cached
    rw [filterMap_map_of_all (formatCachedRow true)
      (savedCachedRow pid stockOf) (fun r => r)
      (sortDescBy (fun r => r.similarity_score) L)
      (fun x hx => hfmt x ((mem_sortDescBy _ _ _).1 hx))]
    rw [List.map_id']
    exact sortDescBy_idem _ L
  have hLnil : L ≠ [] := by
    intro hc
    rw [hc] at hLne
    simp at hLne
  have hsortnil : sortDescBy (fun r => r.similarity_score) L ≠ [] := by
    intro hc
    have hlen := length_sortDescBy (fun r => r.similarity_score) L
    rw [hc] at hlen
    exact hLnil (List.length_eq_zero.1 hlen.symm)
  have hcne : (get_cached_similarities_for_product pid (3/10)
      db2).isEmpty = false := by
    rcases hsort2 : sortDescBy (fun r => r.similarity_score) L with
      _ | ⟨a, tl⟩
    · exact absurd hsort2 hsortnil
    · rw [hcached2, hsort2]
      rfl
  have hrne : (filter_and_format_cached
      (get_cached_similarities_for_product pid (3/10) db2) true).isEmpty
      = false := by
    rcases hsort2 : sortDescBy (fun r => r.similarity_score) L with
      _ | ⟨a, tl⟩
    · exact absurd hsort2 hsortnil
    · rw [hres2, hsort2]
      rfl
  have h2 := find_smart_cache_hit env pid mr db2 hcne hrne
  rw [hres2] at h2
  constructor
  · exact h1
  · rw [h1]
    dsimp only
    rw [hdb2] at h2
    exact h2

/-- C8 witness: the amended theorem applied to the concrete two-product
store and the engine scoring 1.0. -/
theorem c8_cache_idempotent_witness :
    find_smart_alternatives envC8 1 3 true dbC8 =
      { outcome := SmartOutcome.results
          ((sortDescBy (fun r => r.similarity_score) [rankedC8]).take 3),
        db := [rankedC8].foldl (fun d r => save_similarity_cache 1
          r.product.id r.similarity_score r.justification d) dbC8,
        knowledge_calls := 1 } ∧
    find_smart_alternatives envC8 1 3 true
        (find_smart_alternatives envC8 1 3 true dbC8).db =
      { outcome := (find_smart_alternatives envC8 1 3 true dbC8).outcome,
        db := (find_smart_alternatives envC8 1 3 true dbC8).db,
        knowledge_calls := 0 } := by
  have hpre := c8_prefilter_eval dbC8 rfl rfl
  have hrk : claude_rank_alternatives envC8 productC8orig
      (attribute_prefilter productC8orig true 20 dbC8) =
      ([rankedC8], 1) := by
    rw [hpre]
    exact c8_rank_high
  exact c8_cache_idempotent envC8 1 3 dbC8 productC8orig [rankedC8]
    (fun _ => stockC8)
    (by decide) (by decide)
    (by intro row hrow; simp [dbC8] at hrow)
    rfl
    (by rw [hpre]; rfl)
    hrk
    rfl
    (by decide)
    (by
      intro r hr
      rw [List.mem_singleton] at hr
      subst hr
      exact ⟨List.mem_cons_of_mem _ (List.mem_cons_self _ _), rfl⟩)
    (by
      intro r hr
      rw [List.mem_singleton] at hr
      subst hr
      refine ⟨List.mem_cons_self _ _, rfl, ?_⟩
      norm_num [rankedC8, stockC8])
    (by
      intro r hr
      rw [List.mem_singleton] at hr
      subst hr
      norm_num [rankedC8, DEFAULT_MIN_STOCK])
    (by
      intro r hr
      rw [List.mem_singleton] at hr
      subst hr
      norm_num [rankedC8])

/-- C8 (counterexample to the unconditional claim): with the engine
scoring the candidate 0.2 — below the 0.3 cache-lookup floor — the
saved row never survives the second lookup, so a second call with no
intervening data change recomputes and makes a knowledge call again
(both calls report one knowledge call). -/
theorem c8_counterexample :
    (find_smart_alternatives envC8low 1 3 true dbC8).knowledge_calls
      = 1 ∧
    (find_smart_alternatives envC8low 1 3 true
      (find_smart_alternatives envC8low 1 3 true dbC8).db).knowledge_calls
      = 1 := by
  have hcache1 : get_cached_similarities_for_product 1 (3/10) dbC8
      = [] := rfl
  have horig1 : get_product_by_id 1 dbC8 = some productC8orig := rfl
  have hpre1 := c8_prefilter_eval dbC8 rfl rfl
  have hcands1 : (attribute_prefilter productC8orig true 20 dbC8).isEmpty
      = false := by rw [hpre1]; rfl
  have h1 := find_smart_compute_path envC8low 1 3 dbC8 productC8orig
    hcache1 horig1 hcands1
  rw [hpre1, c8_rank_low] at h1
  dsimp only at h1
  simp only [List.isEmpty_cons, Bool.false_eq_true, if_false] at h1
  have hfold : ([rankedC8low] : List RankedAlt).foldl
      (fun d r => save_similarity_cache 1 r.product.id
        r.similarity_score r.justification d) dbC8 = dbC8low2 := rfl
  rw [hfold] at h1
  have hcache2 : get_cached_similarities_for_product 1 (3/10) dbC8low2
      = [] := by
    unfold get_cached_similarities_for_product
    have hflat : dbC8low2.similarity_cache.flatMap
        (cachedRowsFor 1 dbC8low2) =
        [{ sc := simRowC8low, product := productC8cand,
           stock := some stockC8 }] := rfl
    rw [hflat]
    rw [List.filter_cons_of_neg (by
      simp only [decide_eq_true_eq]
      norm_num [simRowC8low])]
    rfl
  have horig2 : get_product_by_id 1 dbC8low2 = some productC8orig := rfl
  have hpre2 := c8_prefilter_eval dbC8low2 rfl rfl
  have hcands2 : (attribute_prefilter productC8orig true 20
      dbC8low2).isEmpty = false := by rw [hpre2]; rfl
  have h2 := find_smart_compute_path envC8low 1 3 dbC8low2 productC8orig
    hcache2 horig2 hcands2
  rw [hpre2, c8_rank_low] at h2
  dsimp only at h2
  simp only [List.isEmpty_cons, Bool.false_eq_true, if_false] at h2
  constructor
  · rw [h1]
  · rw [h1]
    dsimp only
    rw [h2]

end MdfAgent
